import Mathlib

/-!
A shallow embedding of the MiCADO Terraform adaptor
(`src/adaptors/terraform_adaptor.py`) together with proofs about the
properties of its translation, document, reconciliation and retry logic.

Modelling conventions:
* Python/JSON values are represented by `JVal`, a first-order spine encoding
  of null / bool / string / list / dict values (dicts keep insertion order,
  as Python dicts do).
* Python dicts whose values share one Lean type are association lists
  (`List (String × _)`) with first-occurrence lookup.
* Fallible Python code (uncaught `KeyError` / `TypeError` / `AttributeError`,
  and `AdaptorCritical`) is modelled with `Except Err`; `Err.critical` is the
  adaptor's own `AdaptorCritical`, `Err.pyError` is any other uncaught
  Python exception.
* File contents are compared by value: `filecmp.cmp` on two regular files is
  content comparison here.  File-system writes performed by the adaptor are
  recorded as explicit `Act` values instead of real I/O.
* The external container running `terraform` is modelled by the list of
  `(exit_code, output)` results its successive `exec_run` calls return; an
  exhausted list is a model boundary and yields a `pyError`.
-/

/-- First-order encoding of the JSON-like values the adaptor builds
(`null`, booleans, strings, lists, insertion-ordered dicts). -/
inductive JVal where
  | null
  | bool (b : Bool)
  | str (s : String)
  | arrNil
  | arrCons (hd : JVal) (tl : JVal)
  | objNil
  | objCons (key : String) (val : JVal) (rest : JVal)
deriving DecidableEq, Repr

/-- Build an object value from a list of key/value pairs. -/
def JVal.objOf : List (String × JVal) → JVal
  | [] => .objNil
  | (k, v) :: rest => .objCons k v (objOf rest)

/-- Build an array value from a list of values. -/
def JVal.arrOf : List JVal → JVal
  | [] => .arrNil
  | v :: rest => .arrCons v (arrOf rest)

/-- Dict lookup (`d.get(k)` without default) on an object value. -/
def JVal.objGet : JVal → String → Option JVal
  | .objCons k v rest, key => if k = key then some v else JVal.objGet rest key
  | _, _ => none

/-- Dict assignment `d[k] = v`: replace the existing entry or append a new one. -/
def JVal.objSet : JVal → String → JVal → JVal
  | .objCons k' v' rest, k, v =>
      if k' = k then .objCons k v rest else .objCons k' v' (JVal.objSet rest k v)
  | .objNil, k, v => .objCons k v .objNil
  | j, _, _ => j

/-- Apply `f` to the value stored under `k` (used for in-place mutation of a
nested dict value); `k` is always present where the adaptor does this. -/
def JVal.objModify : JVal → String → (JVal → JVal) → JVal
  | .objCons k' v rest, k, f =>
      if k' = k then .objCons k (f v) rest else .objCons k' v (JVal.objModify rest k f)
  | j, _, _ => j

/-- Dict `d.pop(k)`: drop the entry stored under `k`. -/
def JVal.objRemove : JVal → String → JVal
  | .objCons k' v rest, k =>
      if k' = k then rest else .objCons k' v (JVal.objRemove rest k)
  | j, _ => j

/-- Python truthiness of a `JVal` (`None`, `False`, `""`, `[]`, `{}` are falsy). -/
def jTruthy : JVal → Bool
  | .null => false
  | .bool b => b
  | .str s => !s.data.isEmpty
  | .arrNil => false
  | .arrCons _ _ => true
  | .objNil => false
  | .objCons _ _ _ => true

/-- Python `a or b`. -/
def jOr (a b : JVal) : JVal := if jTruthy a then a else b

/-- First key of an object value; every resource stanza the adaptor builds is
a one-entry dict, and this key is what distinguishes stanzas of one resource
type from each other. -/
def outerKey : JVal → Option String
  | .objCons k _ _ => some k
  | _ => none

/-- Lookup in an association list (Python dict access by key). -/
def lookupA {α : Type} (m : List (String × α)) (k : String) : Option α :=
  match m with
  | [] => none
  | (k', v) :: rest => if k' = k then some v else lookupA rest k

/-- Dict assignment on an association list: replace in place or append. -/
def updateA {α : Type} (m : List (String × α)) (k : String) (v : α) : List (String × α) :=
  match m with
  | [] => [(k, v)]
  | (k', v') :: rest => if k' = k then (k, v) :: rest else (k', v') :: updateA rest k v

/-- Drop the entry stored under `k` (Python dict `pop`). -/
def eraseA {α : Type} (m : List (String × α)) (k : String) : List (String × α) :=
  match m with
  | [] => []
  | (k', v) :: rest => if k' = k then rest else (k', v) :: eraseA rest k

/-- `properties.get(k)`, with Python's `None` for a missing key. -/
def pyGet (props : List (String × JVal)) (k : String) : JVal :=
  (lookupA props k).getD .null

deriving instance DecidableEq for Except

/-- Failure taxonomy: `critical` is the adaptor's `AdaptorCritical`, `pyError`
is any other uncaught Python exception (`KeyError`, `TypeError`, ...). -/
inductive Err where
  | critical (msg : String)
  | pyError (msg : String)
deriving DecidableEq, Repr

/-- Whether a failure is the adaptor's own distinguished critical signal. -/
def Err.isCritical : Err → Bool
  | .critical _ => true
  | .pyError _ => false

/-- `properties[k]`: a missing key is an uncaught `KeyError`. -/
def getKey (props : List (String × JVal)) (k : String) : Except Err JVal :=
  match lookupA props k with
  | some v => .ok v
  | none => .error (.pyError ("KeyError: " ++ k))

/-- `properties[k]` where the adaptor then uses the value as a string
(a dict key or a format argument). -/
def getStr (props : List (String × JVal)) (k : String) : Except Err String := do
  match ← getKey props k with
  | .str s => pure s
  | _ => .error (.pyError ("TypeError: str expected for " ++ k))

/-- One `resource` entry of the credential file: its `type` tag and its
`auth_data` field mapping. -/
structure CredEntry where
  type : String
  auth_data : List (String × String)
deriving DecidableEq, Repr

/-- `_get_credential_info`: the `auth_data` of the first credential-file entry
whose `type` equals the requested provider, `none` when no entry matches. -/
def get_credential_info (creds : List CredEntry) (provider : String) :
    Option (List (String × String)) :=
  match creds with
  | [] => none
  | c :: rest =>
      if c.type = provider then some c.auth_data
      else get_credential_info rest provider

/-- `credential[key]` on the (possibly `None`) result of
`_get_credential_info`: subscripting `None` is an uncaught `TypeError`,
a missing key an uncaught `KeyError`. -/
def credGet (credential : Option (List (String × String))) (key : String) :
    Except Err String :=
  match credential with
  | none => .error (.pyError "TypeError: NoneType is not subscriptable")
  | some m =>
      match lookupA m key with
      | some v => .ok v
      | none => .error (.pyError ("KeyError: " ++ key))

/-- The accumulator document built by the adaptor (`TerraformDict`): the
`provider` / `variable` / `output` / `resource` / `data` sections of the
generated `.tf.json` file plus the `tfvars` instance-count mapping that is
dumped to `terraform.tfvars.json`. -/
structure TerraformDict where
  provider : List (String × JVal) := []
  varMap : List (String × JVal) := []
  output : List (String × JVal) := []
  resource : List (String × List JVal) := []
  data : List (String × List JVal) := []
  tfvars : List (String × List String) := []
deriving DecidableEq, Repr

namespace TerraformDict

/-- `add_provider`: first write wins, a later write under the same name is
silently dropped. -/
def add_provider (d : TerraformDict) (name : String) (properties : JVal) :
    TerraformDict :=
  if (lookupA d.provider name).isSome then d
  else { d with provider := d.provider ++ [(name, properties)] }

/-- `add_variable`: first write wins. -/
def add_variable (d : TerraformDict) (name : String) (properties : JVal) :
    TerraformDict :=
  if (lookupA d.varMap name).isSome then d
  else { d with varMap := d.varMap ++ [(name, properties)] }

/-- `add_output`: first write wins; the value is wrapped as `{"value": v}`. -/
def add_output (d : TerraformDict) (name : String) (value : JVal) :
    TerraformDict :=
  if (lookupA d.output name).isSome then d
  else { d with output := d.output ++ [(name, JVal.objOf [("value", value)])] }

/-- `add_resource`: append the stanza to the list kept under `name` unless a
structurally equal stanza is already present. -/
def add_resource (d : TerraformDict) (name : String) (res : JVal) :
    TerraformDict :=
  if res ∈ (lookupA d.resource name).getD [] then d
  else { d with resource :=
           updateA d.resource name (((lookupA d.resource name).getD []) ++ [res]) }

/-- `add_data`: same dedup-by-structural-equality law as `add_resource`. -/
def add_data (d : TerraformDict) (name : String) (value : JVal) :
    TerraformDict :=
  if value ∈ (lookupA d.data name).getD [] then d
  else { d with data :=
           updateA d.data name (((lookupA d.data name).getD []) ++ [value]) }

/-- The fresh token list `["1", ..., str(count)]` built by
`add_instance_variable`. -/
def tokenList (count : Nat) : List String :=
  (List.range count).map (fun i => toString (i + 1))

/-- `add_instance_variable`: declare the count variable and store the fresh
token list under the node name (dict assignment, overwriting). -/
def add_instance_variable (d : TerraformDict) (name : String) (value : Nat) :
    TerraformDict :=
  let d := d.add_variable name (JVal.objOf [])
  { d with tfvars := updateA d.tfvars name (tokenList value) }

/-- `update_instance_vars`: for every node name of the freshly built `tfvars`,
keep the previously committed token list when the name is present in `old`,
otherwise keep the fresh list. -/
def update_instance_vars (d : TerraformDict) (old : List (String × List String)) :
    TerraformDict :=
  { d with tfvars := d.tfvars.map (fun p => (p.1, (lookupA old p.1).getD p.2)) }

end TerraformDict

/-- Total number of resource stanzas held in the document. -/
def resourceTotal (d : TerraformDict) : Nat :=
  (d.resource.map (fun p => p.2.length)).sum

/-- Lower-casing used for the `use_msi` string comparison (`.lower()`),
written over the character list so that it evaluates by `decide`. -/
def lowerStr (s : String) : String := ⟨s.data.map Char.toLower⟩

/-- `"_" in node.name`, the underscore validity check of `translate`. -/
def nameHasUnderscore (name : String) : Bool := name.data.contains '_'

/-- The credential record for Azure: `_get_credential_info` returning `None`
makes the immediately following `.get` calls an uncaught `AttributeError`. -/
def azure_credential (creds : List CredEntry) : Except Err (List (String × String)) :=
  match get_credential_info creds "azure" with
  | some c => .ok c
  | none => .error (.pyError "AttributeError: NoneType has no attribute get")

/-- `properties.pop(k, "").lower()` seen as extraction: the popped string
(default `""`); `.lower()` on a non-string value is an uncaught
`AttributeError`. -/
def popStrDefault (props : List (String × JVal)) (k : String) : Except Err String :=
  match lookupA props k with
  | none => .ok ""
  | some (.str s) => .ok s
  | some _ => .error (.pyError "AttributeError: lower")

/-- `_consolidate_ec2_properties`: rename the mandatory EC2 keys
(`region_name` / `image_id` / `instance_type`, a missing one is an uncaught
`KeyError`) and carry the optional `key_name` / `security_group_ids`. -/
def consolidate_ec2_properties (properties : List (String × JVal)) :
    Except Err (List (String × JVal)) := do
  let region ← getKey properties "region_name"
  let ami ← getKey properties "image_id"
  let instance_type ← getKey properties "instance_type"
  let aws_properties := [("region", region), ("ami", ami), ("instance_type", instance_type)]
  let aws_properties :=
    if jTruthy (pyGet properties "key_name") then
      aws_properties ++ [("key_name", pyGet properties "key_name")]
    else aws_properties
  let aws_properties :=
    if jTruthy (pyGet properties "security_group_ids") then
      aws_properties ++ [("vpc_security_group_ids", pyGet properties "security_group_ids")]
    else aws_properties
  pure aws_properties

/-- The region already committed to the document's `aws` provider entry, if
any: `self.tf_json.provider.get("aws", {}).get("region")`. -/
def awsCommittedRegion (d : TerraformDict) : Option JVal :=
  ((lookupA d.provider "aws").getD (.objOf [])).objGet "region"

/-- The committed-region conflict check of `_add_terraform_aws`:
`if aws_region and aws_region != region: raise AdaptorCritical(...)`. -/
def check_aws_region (d : TerraformDict) (region : JVal) : Except Err Unit :=
  match awsCommittedRegion d with
  | some prev =>
      if jTruthy prev && prev ≠ region then
        .error (.critical "Multiple different AWS regions is unsupported")
      else .ok ()
  | none => .ok ()

/-- `+=` of `"${each.key}"` onto the `Name` tag (always a string here). -/
def jStrAppend (v : JVal) (suffix : String) : JVal :=
  match v with
  | .str s => .str (s ++ suffix)
  | other => other

/-- The `aws` provider fragment of `_add_terraform_aws`. -/
def awsProviderVal (region : JVal) (accesskey secretkey : String)
    (endpoint : Option JVal) : JVal :=
  let aws_provider := JVal.objOf
    [("version", .str "~> 2.54"), ("region", region),
     ("access_key", .str accesskey), ("secret_key", .str secretkey)]
  match endpoint with
  | some e =>
      if jTruthy e then aws_provider.objSet "endpoints" (.objOf [("ec2", e)])
      else aws_provider
  | none => aws_provider

/-- The inner dict of the `aws_instance` stanza: the remaining consolidated
properties, the bootstrap / shutdown / iteration keys, a defaulted `Name` tag
with `"$\x7beach.key\x7d"` appended. -/
def awsInstanceBody (nm : String) (props : List (String × JVal)) : JVal :=
  let cloud_init_file_name := nm ++ "-cloud-init.yaml"
  let body := JVal.objOf (props ++
    [("user_data", .str ("$\x7bfile(\"$\x7bpath.module\x7d/" ++ cloud_init_file_name ++ "\")\x7d")),
     ("instance_initiated_shutdown_behavior", .str "terminate"),
     ("for_each", .str ("$\x7btoset(var." ++ nm ++ ")\x7d"))])
  let body :=
    if (body.objGet "tags").isSome then body
    else body.objSet "tags" (.objOf [("Name", .str nm)])
  body.objModify "tags"
    (fun tags => tags.objModify "Name" (fun v => jStrAppend v "$\x7beach.key\x7d"))

/-- The IP output value of `_add_terraform_aws`. -/
def awsOutputVal (nm : String) : JVal :=
  JVal.objOf
    [("private_ips", .str ("$\x7b[for i in aws_instance." ++ nm ++ " : i.private_ip]\x7d")),
     ("public_ips", .str ("$\x7b[for i in aws_instance." ++ nm ++ " : i.public_ip]\x7d"))]

/-- The document part of `_add_terraform_aws`, after every fallible property
and credential access has succeeded: add the `aws` provider, the instance
count variable, the single `aws_instance` stanza and the IP output. -/
def aws_build (node_name : String) (min_instances : Nat) (region : JVal)
    (accesskey secretkey : String) (endpoint : Option JVal)
    (properties : List (String × JVal)) (d : TerraformDict) : TerraformDict :=
  ((((d.add_provider "aws" (awsProviderVal region accesskey secretkey endpoint)).add_instance_variable
      node_name min_instances).add_resource
      "aws_instance" (JVal.objCons node_name (awsInstanceBody node_name properties) .objNil)).add_output
      node_name (awsOutputVal node_name))

/-- `_add_terraform_aws` on consolidated EC2 properties: fetch the `ec2`
credential, pop the region, abort the whole pass on a second differing AWS
region, then build the document fragments. -/
def add_terraform_aws (creds : List CredEntry) (node_name : String)
    (min_instances : Nat) (d : TerraformDict) (properties : List (String × JVal)) :
    Except Err TerraformDict := do
  let credential := get_credential_info creds "ec2"
  let region ← getKey properties "region"
  let properties := eraseA properties "region"
  let _ ← check_aws_region d region
  let accesskey ← credGet credential "accesskey"
  let secretkey ← credGet credential "secretkey"
  let endpoint := lookupA properties "endpoint"
  let properties := eraseA properties "endpoint"
  pure (aws_build node_name min_instances region accesskey secretkey endpoint properties d)

/-- Values extracted by `_add_terraform_nova` before anything is added. -/
structure NovaParsed where
  auth_url : JVal
  tenant_id : JVal
  username : String
  password : String
  image_id : JVal
  flavor_id : JVal
  network_name : JVal
  network_id : JVal
  key_pair : JVal
  security_groups : JVal
deriving DecidableEq, Repr

/-- Fallible part of `_add_terraform_nova`, in the source's evaluation order
(`project_id`, then the credential subscripts inside `get_provider`, then the
remaining mandatory properties). -/
def nova_parse (creds : List CredEntry) (properties : List (String × JVal)) :
    Except Err NovaParsed := do
  let credential := get_credential_info creds "nova"
  let auth_url := jOr (pyGet properties "auth_url") (pyGet properties "endpoint")
  let tenant_id ← getKey properties "project_id"
  let username ← credGet credential "username"
  let password ← credGet credential "password"
  let image_id ← getKey properties "image_id"
  let flavor_id := jOr (pyGet properties "flavor_name") (pyGet properties "flavor_id")
  let network_name ← getKey properties "network_name"
  let network_id ← getKey properties "network_id"
  let key_pair ← getKey properties "key_name"
  let security_groups ← getKey properties "security_groups"
  pure { auth_url, tenant_id, username, password, image_id, flavor_id,
         network_name, network_id, key_pair, security_groups }

/-- The `openstack` provider fragment of `_add_terraform_nova`. -/
def novaProviderVal (p : NovaParsed) : JVal :=
  JVal.objOf
    [("version", .str "~> 1.26"), ("auth_url", p.auth_url), ("tenant_id", p.tenant_id),
     ("user_name", .str p.username), ("password", .str p.password)]

/-- The inner dict of the `openstack_compute_instance_v2` stanza. -/
def novaVmBody (nm : String) (p : NovaParsed) : JVal :=
  let cloud_init_file_name := nm ++ "-cloud-init.yaml"
  JVal.objOf
    [("name", .str (nm ++ "$\x7beach.key\x7d")),
     ("image_id", p.image_id), ("flavor_id", p.flavor_id), ("key_pair", p.key_pair),
     ("security_groups", p.security_groups),
     ("user_data", .str ("$\x7bfile(\"$\x7bpath.module\x7d/" ++ cloud_init_file_name ++ "\")\x7d")),
     ("for_each", .str ("$\x7btoset(var." ++ nm ++ ")\x7d")),
     ("network", .objOf [("name", p.network_name), ("uuid", p.network_id)])]

/-- Document part of `_add_terraform_nova`: instance count variable, the
`openstack` provider and the single `openstack_compute_instance_v2` stanza. -/
def nova_build (node_name : String) (min_instances : Nat) (p : NovaParsed)
    (d : TerraformDict) : TerraformDict :=
  (((d.add_instance_variable node_name min_instances).add_provider
      "openstack" (novaProviderVal p)).add_resource
      "openstack_compute_instance_v2"
      (JVal.objCons node_name (novaVmBody node_name p) .objNil))

/-- `_add_terraform_nova`. -/
def add_terraform_nova (creds : List CredEntry) (node_name : String)
    (min_instances : Nat) (d : TerraformDict) (properties : List (String × JVal)) :
    Except Err TerraformDict := do
  let p ← nova_parse creds properties
  pure (nova_build node_name min_instances p d)

/-- The managed-identity decision of `_add_terraform_azure`: `any` of — no or
empty `client_secret` in the credential record, credential `use_msi` equal to
`"true"` case-insensitively, node-property `use_msi` equal to `"true"`
case-insensitively. -/
def azure_use_msi (credential : List (String × String)) (prop_use_msi : String) : Bool :=
  (match lookupA credential "client_secret" with
   | none => true
   | some s => s.data.isEmpty)
  || lowerStr ((lookupA credential "use_msi").getD "") = "true"
  || lowerStr prop_use_msi = "true"

/-- The `get_provider` closure of `_add_terraform_azure`: always
`version` / `subscription_id` / `features`; `use_msi` in managed-identity
mode, `tenant_id` / `client_id` / `client_secret` from the credential record
otherwise. -/
def azure_get_provider (credential : Option (List (String × String)))
    (use_msi : Bool) : Except Err JVal := do
  let subscription_id ← credGet credential "subscription_id"
  if use_msi then
    pure (JVal.objOf
      [("version", .str "~> 2.2"), ("subscription_id", .str subscription_id),
       ("features", .objOf []), ("use_msi", .str "true")])
  else do
    let tenant_id ← credGet credential "tenant_id"
    let client_id ← credGet credential "client_id"
    let client_secret ← credGet credential "client_secret"
    pure (JVal.objOf
      [("version", .str "~> 2.2"), ("subscription_id", .str subscription_id),
       ("features", .objOf []), ("tenant_id", .str tenant_id),
       ("client_id", .str client_id), ("client_secret", .str client_secret)])

/-- Values extracted by `_add_terraform_azure` before anything is added. -/
structure AzureParsed where
  provider : JVal
  resource_group : String
  virtual_network : String
  subnet : String
  network_security_group : String
  public_ip : Bool
  size : JVal
  image_sku : JVal
  source_image_id : JVal
  admin_username : JVal
  admin_password : JVal
  public_key : JVal
  context : Bool
deriving DecidableEq, Repr

/-- Fallible part of `_add_terraform_azure`, in the source's evaluation
order: the credential record (calling `.get` on a missing record is an
uncaught `AttributeError`), the popped `use_msi` override (`.lower()` on a
non-string is an uncaught `AttributeError`), the provider credential
subscripts, then the mandatory name properties and `size`. -/
def azure_parse (creds : List CredEntry) (properties : List (String × JVal)) :
    Except Err AzureParsed := do
  let credential ← azure_credential creds
  let prop_use_msi ← popStrDefault properties "use_msi"
  let properties := eraseA properties "use_msi"
  let use_msi := azure_use_msi credential prop_use_msi
  let provider ← azure_get_provider (some credential) use_msi
  let resource_group ← getStr properties "resource_group"
  let virtual_network ← getStr properties "virtual_network"
  let subnet ← getStr properties "subnet"
  let network_security_group ← getStr properties "network_security_group"
  let size ← getKey properties "size"
  pure { provider, resource_group, virtual_network, subnet, network_security_group,
         public_ip := jTruthy (pyGet properties "public_ip"), size,
         image_sku := pyGet properties "image_sku",
         source_image_id := pyGet properties "source_image_id",
         admin_username := pyGet properties "admin_username",
         admin_password := pyGet properties "admin_password",
         public_key := pyGet properties "public_key",
         context := jTruthy (pyGet properties "context") }

/-- Interpolation reference to the resource group's name. -/
def azureRgNameRef (p : AzureParsed) : JVal :=
  .str ("$\x7bdata.azurerm_resource_group." ++ p.resource_group ++ ".name\x7d")

/-- Interpolation reference to the resource group's location. -/
def azureRgLocationRef (p : AzureParsed) : JVal :=
  .str ("$\x7bdata.azurerm_resource_group." ++ p.resource_group ++ ".location\x7d")

/-- The per-instance iteration expression over the node's count variable. -/
def azureForEach (nm : String) : JVal :=
  .str ("$\x7btoset(var." ++ nm ++ ")\x7d")

/-- Inner dict of the `azurerm_resource_group` data source. -/
def azureRgBody (p : AzureParsed) : JVal := .objOf [("name", .str p.resource_group)]

/-- Inner dict of the `azurerm_virtual_network` data source. -/
def azureVnetBody (p : AzureParsed) : JVal :=
  .objOf [("name", .str p.virtual_network), ("resource_group_name", azureRgNameRef p)]

/-- Inner dict of the `azurerm_subnet` data source. -/
def azureSubnetBody (p : AzureParsed) : JVal :=
  .objOf [("name", .str p.subnet), ("resource_group_name", azureRgNameRef p),
    ("virtual_network_name",
     .str ("$\x7bdata.azurerm_virtual_network." ++ p.virtual_network ++ ".name\x7d"))]

/-- Inner dict of the `azurerm_network_security_group` data source. -/
def azureNsgBody (p : AzureParsed) : JVal :=
  .objOf [("name", .str p.network_security_group), ("resource_group_name", azureRgNameRef p)]

/-- Inner dict of the `azurerm_public_ip` stanza. -/
def azurePubIpBody (nm : String) (p : AzureParsed) : JVal :=
  .objOf [("name", .str (nm ++ "-ip" ++ "$\x7beach.key\x7d")),
    ("location", azureRgLocationRef p), ("resource_group_name", azureRgNameRef p),
    ("allocation_method", .str "Static"), ("for_each", azureForEach nm)]

/-- Inner dict of the `azurerm_network_interface` stanza; when a public IP is
requested the adaptor additionally assigns `public_ip_address_id` into
`ip_configuration`. -/
def azureNicBody (nm : String) (p : AzureParsed) : JVal :=
  let nic_body := JVal.objOf
    [("name", .str (nm ++ "-nic" ++ "$\x7beach.key\x7d")),
     ("location", azureRgLocationRef p), ("resource_group_name", azureRgNameRef p),
     ("for_each", azureForEach nm),
     ("ip_configuration", .objOf
       [("name", .str (nm ++ "-nic-config" ++ "$\x7beach.key\x7d")),
        ("subnet_id", .str ("$\x7bdata.azurerm_subnet." ++ p.subnet ++ ".id\x7d")),
        ("private_ip_address_allocation", .str "Dynamic")])]
  if p.public_ip then
    nic_body.objModify "ip_configuration" (fun ipc =>
      ipc.objSet "public_ip_address_id"
        (.str ("$\x7bazurerm_public_ip." ++ nm ++ "-ip" ++ "[each.key].id\x7d")))
  else nic_body

/-- Inner dict of the network-interface security-group association stanza. -/
def azureAssocBody (nm : String) (p : AzureParsed) : JVal :=
  .objOf [("for_each", azureForEach nm),
    ("network_interface_id",
     .str ("$\x7bazurerm_network_interface." ++ nm ++ "-nic" ++ "[each.key].id\x7d")),
    ("network_security_group_id",
     .str ("$\x7bdata.azurerm_network_security_group." ++ p.network_security_group ++ ".id\x7d"))]

/-- Resource type of the virtual machine: Linux-shaped when an SSH public key
is supplied, Windows-shaped otherwise. -/
def azureVmType (p : AzureParsed) : String :=
  if jTruthy p.public_key then "azurerm_linux_virtual_machine"
  else "azurerm_windows_virtual_machine"

/-- Inner dict of the virtual-machine stanza: the Linux shape with SSH key
and bootstrap data, or the Windows shape with defaulted admin credentials and
bootstrap data only when a context was supplied; a supplied `source_image_id`
replaces `source_image_reference`. -/
def azureVmBody (nm : String) (p : AzureParsed) : JVal :=
  let nicIds := JVal.arrOf
    [.str ("$\x7bazurerm_network_interface." ++ nm ++ "-nic" ++ "[each.key].id\x7d")]
  let custom_data :=
    JVal.str ("$\x7bfilebase64(\"$\x7bpath.module\x7d/" ++ nm ++ "-cloud-init.yaml" ++ "\")\x7d")
  let os_disk := JVal.objOf
    [("caching", .str "ReadWrite"), ("storage_account_type", .str "Standard_LRS")]
  let body :=
    if jTruthy p.public_key then
      JVal.objOf
        [("name", .str (nm ++ "$\x7beach.key\x7d")),
         ("location", azureRgLocationRef p), ("resource_group_name", azureRgNameRef p),
         ("network_interface_ids", nicIds), ("size", p.size),
         ("admin_username", jOr p.admin_username (.str "ubuntu")),
         ("admin_ssh_key", .objOf
           [("username", jOr p.admin_username (.str "ubuntu")),
            ("public_key", p.public_key)]),
         ("for_each", azureForEach nm), ("os_disk", os_disk),
         ("source_image_reference", .objOf
           [("publisher", .str "Canonical"), ("offer", .str "UbuntuServer"),
            ("sku", jOr p.image_sku (.str "18.04-LTS")), ("version", .str "latest")]),
         ("custom_data", custom_data)]
    else
      let winBody := JVal.objOf
        [("name", .str (nm ++ "$\x7beach.key\x7d")),
         ("location", azureRgLocationRef p), ("resource_group_name", azureRgNameRef p),
         ("size", p.size),
         ("admin_username", jOr p.admin_username (.str "windows")),
         ("admin_password", jOr p.admin_password (.str "Xyzabc123@")),
         ("network_interface_ids", nicIds),
         ("for_each", azureForEach nm), ("os_disk", os_disk),
         ("source_image_reference", .objOf
           [("publisher", .str "MicrosoftWindowsServer"), ("offer", .str "WindowsServer"),
            ("sku", jOr p.image_sku (.str "2016-Datacenter")), ("version", .str "latest")])]
      if p.context then winBody.objSet "custom_data" custom_data else winBody
  if jTruthy p.source_image_id then
    (body.objRemove "source_image_reference").objSet "source_image_id" p.source_image_id
  else body

/-- The private-IP output value of `_add_terraform_azure`. -/
def azureOutputVal (nm : String) : JVal :=
  JVal.objOf
    [("private_ips",
      .str ("$\x7b[for i in azurerm_network_interface." ++ nm ++ "-nic"
        ++ " : i.private_ip_address]\x7d"))]

/-- First half of the document part of `_add_terraform_azure`: the `azurerm`
provider, the count variable and the four data sources. -/
def azure_base (node_name : String) (min_instances : Nat) (p : AzureParsed)
    (d : TerraformDict) : TerraformDict :=
  let d := d.add_provider "azurerm" p.provider
  let d := d.add_instance_variable node_name min_instances
  let d := d.add_data "azurerm_resource_group"
    (JVal.objCons p.resource_group (azureRgBody p) .objNil)
  let d := d.add_data "azurerm_virtual_network"
    (JVal.objCons p.virtual_network (azureVnetBody p) .objNil)
  let d := d.add_data "azurerm_subnet"
    (JVal.objCons p.subnet (azureSubnetBody p) .objNil)
  d.add_data "azurerm_network_security_group"
    (JVal.objCons p.network_security_group (azureNsgBody p) .objNil)

/-- The resource/output tail of `_add_terraform_azure` on top of
`azure_base`. -/
def azure_build (node_name : String) (min_instances : Nat) (p : AzureParsed)
    (d : TerraformDict) : TerraformDict :=
  let d := azure_base node_name min_instances p d
  let d :=
    if p.public_ip then
      d.add_resource "azurerm_public_ip"
        (JVal.objCons (node_name ++ "-ip") (azurePubIpBody node_name p) .objNil)
    else d
  let d := d.add_resource "azurerm_network_interface"
    (JVal.objCons (node_name ++ "-nic") (azureNicBody node_name p) .objNil)
  let d := d.add_resource "azurerm_network_interface_security_group_association"
    (JVal.objCons (node_name ++ "security-association") (azureAssocBody node_name p) .objNil)
  let d := d.add_resource (azureVmType p) (JVal.objCons node_name (azureVmBody node_name p) .objNil)
  d.add_output node_name (azureOutputVal node_name)

/-- `_add_terraform_azure`. -/
def add_terraform_azure (creds : List CredEntry) (node_name : String)
    (min_instances : Nat) (d : TerraformDict) (properties : List (String × JVal)) :
    Except Err TerraformDict := do
  let p ← azure_parse creds properties
  pure (azure_build node_name min_instances p d)

/-- Values extracted by `_add_terraform_gce` before anything is added. -/
structure GceParsed where
  project : JVal
  region : JVal
  image : JVal
  network : JVal
  machine_type : JVal
  zone : JVal
  ssh_keys : String
deriving DecidableEq, Repr

/-- Fallible part of `_add_terraform_gce`, in the source's evaluation order. -/
def gce_parse (properties : List (String × JVal)) : Except Err GceParsed := do
  let project ← getKey properties "project"
  let region ← getKey properties "region"
  let image ← getKey properties "image"
  let network ← getKey properties "network"
  let machine_type ← getKey properties "machine_type"
  let zone ← getKey properties "zone"
  let ssh_keys ← getStr properties "ssh-keys"
  pure { project, region, image, network, machine_type, zone, ssh_keys }

/-- The `google` provider fragment of `_add_terraform_gce`. -/
def gceProviderVal (p : GceParsed) : JVal :=
  JVal.objOf
    [("version", .str "~> 3.14"), ("credentials", .str "$\x7bfile(\"accounts.json\")\x7d"),
     ("project", p.project), ("region", p.region)]

/-- The inner dict of the `google_compute_instance` stanza. -/
def gceVmBody (nm : String) (p : GceParsed) : JVal :=
  let cloud_init_file_name := nm ++ "-cloud-init.yaml"
  JVal.objOf
    [("name", .str (nm ++ "$\x7beach.key\x7d")),
     ("machine_type", p.machine_type), ("zone", p.zone),
     ("for_each", .str ("$\x7btoset(var." ++ nm ++ ")\x7d")),
     ("boot_disk", .objOf [("initialize_params", .objOf [("image", p.image)])]),
     ("network_interface", .objOf [("network", p.network), ("access_config", .objOf [])]),
     ("metadata", .objOf
       [("ssh-keys", .str ("ubuntu:" ++ p.ssh_keys)),
        ("user-data", .str ("$\x7bfile(\"$\x7bpath.module\x7d/" ++ cloud_init_file_name ++ "\")\x7d"))])]

/-- Document part of `_add_terraform_gce`: count variable, `google` provider
and the single `google_compute_instance` stanza (the staging of the
service-account file is file I/O outside the document model). -/
def gce_build (node_name : String) (min_instances : Nat) (p : GceParsed)
    (d : TerraformDict) : TerraformDict :=
  (((d.add_instance_variable node_name min_instances).add_provider
      "google" (gceProviderVal p)).add_resource
      "google_compute_instance"
      (JVal.objCons node_name (gceVmBody node_name p) .objNil))

/-- `_add_terraform_gce`. -/
def add_terraform_gce (node_name : String) (min_instances : Nat)
    (d : TerraformDict) (properties : List (String × JVal)) :
    Except Err TerraformDict := do
  let p ← gce_parse properties
  pure (gce_build node_name min_instances p d)

/-- One node specification as it reaches the translation loop, with the
out-of-scope collaborators already resolved: `hasInterface` is the result of
the Terraform-lifecycle lookup, `cloud_type` the result of
`utils.get_cloud_type` over `SUPPORTED_CLOUDS`, `properties` the resolved
property/option mapping, `min_instances` the resolved scaling policy. -/
structure NodeSpec where
  name : String
  hasInterface : Bool
  cloud_type : Option String
  properties : List (String × JVal)
  min_instances : Nat
deriving DecidableEq, Repr

/-- One iteration of the `translate` node loop: reject underscores, skip
nodes without a Terraform interface, dispatch on the supported cloud type
(anything else is silently ignored). -/
def translateNode (creds : List CredEntry) (d : TerraformDict) (node : NodeSpec) :
    Except Err TerraformDict :=
  if nameHasUnderscore node.name then
    .error (.critical ("Underscores in node " ++ node.name ++ " not allowed"))
  else if !node.hasInterface then pure d
  else if node.cloud_type = some "ec2" then do
    let aws_properties ← consolidate_ec2_properties node.properties
    add_terraform_aws creds node.name node.min_instances d aws_properties
  else if node.cloud_type = some "nova" then
    add_terraform_nova creds node.name node.min_instances d node.properties
  else if node.cloud_type = some "azure" then
    add_terraform_azure creds node.name node.min_instances d node.properties
  else if node.cloud_type = some "gce" then
    add_terraform_gce node.name node.min_instances d node.properties
  else pure d

/-- File-system effects of the adaptor, recorded instead of performed. -/
inductive Act where
  | stageTmpFiles
  | commitFiles
  | removeTmpFiles
  | destroyInfra
  | cleanupFiles
  | renameAllTmpFiles
  | applyInfra
deriving DecidableEq, Repr

/-- `translate`: fold the node loop over the fresh document; with no provider
short-circuit as `Skipped` touching nothing; in update mode merge instance
variables with the committed ones and stage temp files; otherwise (unless
validating) commit the document files directly. -/
def translateOp (creds : List CredEntry) (nodes : List NodeSpec)
    (upd validateOnly : Bool) (oldVars : List (String × List String)) :
    Except Err (TerraformDict × List Act × String) := do
  let d ← nodes.foldlM (translateNode creds) {}
  if d.provider.isEmpty then
    pure (d, [], "Skipped")
  else if upd then
    pure (d.update_instance_vars oldVars, [.stageTmpFiles], "Translated")
  else if !validateOnly then
    pure (d, [.commitFiles], "Translated")
  else
    pure (d, [], "Translated")

/-- Whether `pat` is a leading prefix of `l`. -/
def startsWithChars : List Char → List Char → Bool
  | [], _ => true
  | _ :: _, [] => false
  | a :: as, b :: bs => a == b && startsWithChars as bs

/-- Whether `pat` occurs contiguously inside `l`. -/
def hasSubChars (pat : List Char) : List Char → Bool
  | [] => pat.isEmpty
  | c :: cs => startsWithChars pat (c :: cs) || hasSubChars pat cs

/-- Python `pat in s` on strings. -/
def strContains (s pat : String) : Bool := hasSubChars pat.data s.data

/-- `_terraform_exec`: run the command, fail critically on a non-zero exit,
retry after a fixed 5 second sleep while the output carries the
state-lock-contention signature and the lock-timeout budget is positive,
otherwise return the output.  `runs` is the stream of `(exit_code, output)`
results the container produces for the successive attempts. -/
def terraform_exec : List (Nat × String) → Int → Except Err String
  | [], _ => .error (.pyError "model boundary: no further command results")
  | (exit_code, out) :: rest, lock_timeout =>
      if exit_code > 0 then
        .error (.critical ("Terraform exec failed " ++ out))
      else if lock_timeout > 0 && strContains out "Error locking state" then
        terraform_exec rest (lock_timeout - 5)
      else
        .ok out

/-- `_terraform_init`: exec with the default (zero) lock budget and require
the success marker. -/
def terraform_init (runs : List (Nat × String)) : Except Err String := do
  let exec_output ← terraform_exec runs 0
  if strContains exec_output "successfully initialized" then pure exec_output
  else .error (.critical ("Terraform init failed: " ++ exec_output))

/-- `_terraform_apply`: exec with the caller's lock budget and require the
success marker; the raw output is surfaced in the failure message. -/
def terraform_apply (runs : List (Nat × String)) (lock_timeout : Int) :
    Except Err String := do
  let exec_output ← terraform_exec runs lock_timeout
  if strContains exec_output "Apply complete" then pure exec_output
  else .error (.critical ("Terraform apply failed: " ++ exec_output))

/-- `_terraform_destroy`: exec with the larger destroy budget of 600 and
require the success marker. -/
def terraform_destroy (runs : List (Nat × String)) : Except Err String := do
  let exec_output ← terraform_exec runs 600
  if strContains exec_output "Destroy complete" then pure exec_output
  else .error (.critical ("Undeploy failed: " ++ exec_output))

/-- The exec part of `execute`: a fresh run performs `terraform init` and an
apply with no lock budget, an incremental update skips init and applies with
the bounded 300 second budget. -/
def executeRun (upd : Bool) (initRuns applyRuns : List (Nat × String)) :
    Except Err String := do
  if upd then
    terraform_apply applyRuns 300
  else do
    let _ ← terraform_init initRuns
    terraform_apply applyRuns 0

/-- `_differentiate` via `filecmp` on two regular files: content inequality. -/
def differentiate {α : Type} [DecidableEq α] (a b : α) : Bool := decide (a ≠ b)

/-- One cloud-init file pair of `self.cloud_inits`: whether the committed
file exists, its committed content, and its freshly staged `.tmp` content. -/
structure CloudInitPair where
  committedExists : Bool
  committed : String
  staged : String
deriving DecidableEq, Repr

/-- `_differentiate_cloud_inits`: some committed cloud-init file exists and
differs from its staged counterpart. -/
def differentiate_cloud_inits (cloudInits : List CloudInitPair) : Bool :=
  cloudInits.any (fun ci => ci.committedExists && differentiate ci.committed ci.staged)

/-- `update`: translate in staged mode, then reconcile.  `committedTf` is the
content of the committed `.tf.json` (`none` when the file does not exist),
`destroyRuns` / `applyRuns` the container results consumed by an undeploy or
an incremental apply.  Returns the final status string and the recorded
file-system effects. -/
def updateOp (creds : List CredEntry) (nodes : List NodeSpec)
    (oldVars : List (String × List String)) (committedTf : Option TerraformDict)
    (cloudInits : List CloudInitPair) (dryrun : Bool)
    (destroyRuns applyRuns : List (Nat × String)) :
    Except Err (String × List Act) := do
  let (d, acts, _) ← translateOp creds nodes true false oldVars
  if d.provider.isEmpty && committedTf.isSome then
    if dryrun then
      pure ("Updated (undeployed)", acts ++ [.removeTmpFiles, .cleanupFiles])
    else do
      let _ ← terraform_destroy destroyRuns
      pure ("Updated (undeployed)", acts ++ [.removeTmpFiles, .destroyInfra, .cleanupFiles])
  else if d.provider.isEmpty then
    pure ("Skipped", acts ++ [.removeTmpFiles])
  else
    match committedTf with
    | none => .error (.pyError "FileNotFoundError: committed Terraform file missing")
    | some committed =>
      if differentiate committed d then
        if dryrun then
          pure ("Updated Terraform file", acts ++ [.renameAllTmpFiles])
        else do
          let _ ← terraform_apply applyRuns 300
          pure ("Updated Terraform file", acts ++ [.renameAllTmpFiles, .applyInfra])
      else if differentiate_cloud_inits cloudInits then
        if dryrun then
          pure ("Updated cloud_init files", acts ++ [.renameAllTmpFiles])
        else do
          let _ ← terraform_apply applyRuns 300
          pure ("Updated cloud_init files", acts ++ [.renameAllTmpFiles, .applyInfra])
      else
        pure ("Updated (nothing to update)", acts ++ [.removeTmpFiles])

/-- Provider-map key the node loop inserts for a node, if any. -/
def providerNameOf (n : NodeSpec) : Option String :=
  if !n.hasInterface then none
  else if n.cloud_type = some "ec2" then some "aws"
  else if n.cloud_type = some "nova" then some "openstack"
  else if n.cloud_type = some "azure" then some "azurerm"
  else if n.cloud_type = some "gce" then some "google"
  else none

/-- Number of resource stanzas the node loop inserts for a node: one for an
EC2, Nova or GCE node; three for an Azure node, four when it requests a
public IP; zero for skipped nodes. -/
def stanzaWeight (n : NodeSpec) : Nat :=
  if !n.hasInterface then 0
  else if n.cloud_type = some "ec2" then 1
  else if n.cloud_type = some "nova" then 1
  else if n.cloud_type = some "azure" then
    (if jTruthy (pyGet n.properties "public_ip") then 4 else 3)
  else if n.cloud_type = some "gce" then 1
  else 0

/-- Suffix the adaptor appends to the node name to form the outer key of a
stanza of the given resource type. -/
def stanzaSuffix (t : String) : String :=
  if t = "azurerm_public_ip" then "-ip"
  else if t = "azurerm_network_interface" then "-nic"
  else if t = "azurerm_network_interface_security_group_association" then "security-association"
  else ""

/-- Outer stanza key contributed by node `p` for resource type `t`. -/
def stanzaTag (t p : String) : String := p ++ stanzaSuffix t

/-- Every stanza held in the document belongs to a node whose name is in `P`:
it is the one-entry dict keyed by that node's tag for its resource type. -/
def TaggedBy (P : List String) (d : TerraformDict) : Prop :=
  ∀ t l, lookupA d.resource t = some l → ∀ s ∈ l, ∃ p ∈ P, outerKey s = some (stanzaTag t p)

/-- Key-list effect of a first-write-wins insertion. -/
def insertNewKey (ks : List String) (k : String) : List String :=
  if k ∈ ks then ks else ks ++ [k]

/-- Credential file fixture with entries for `ec2` and `azure`. -/
def credsFix : List CredEntry :=
  [{ type := "ec2", auth_data := [("accesskey", "AK"), ("secretkey", "SK")] },
   { type := "azure", auth_data := [("subscription_id", "sub-1"), ("tenant_id", "ten-1"),
      ("client_id", "cli-1"), ("client_secret", "sec-1")] }]

/-- Fully specified EC2 node fixture. -/
def awsNodeFix (nm region : String) : NodeSpec :=
  { name := nm, hasInterface := true, cloud_type := some "ec2",
    properties := [("region_name", .str region), ("image_id", .str "ami-1"),
      ("instance_type", .str "t2.small")],
    min_instances := 2 }

/-- Fully specified Azure node fixture (no public IP, no SSH key). -/
def azureNodeFix : NodeSpec :=
  { name := "worker", hasInterface := true, cloud_type := some "azure",
    properties := [("resource_group", .str "rg"), ("virtual_network", .str "vn"),
      ("subnet", .str "sn"), ("network_security_group", .str "nsg"),
      ("size", .str "Standard_B1s")],
    min_instances := 1 }

/-- Azure credential record fixture carrying a non-empty client secret and no
`use_msi` flag. -/
def azureCredFix : List (String × String) :=
  [("subscription_id", "sub-1"), ("tenant_id", "ten-1"),
   ("client_id", "cli-1"), ("client_secret", "sec-1")]

theorem exceptBind_ok {ε α β : Type} {a : Except ε α} {f : α → Except ε β} {b : β}
    (h : (a >>= f) = Except.ok b) : ∃ x, a = Except.ok x ∧ f x = Except.ok b := by
  cases a with
  | error e => simp [Bind.bind, Except.bind] at h
  | ok x => exact ⟨x, rfl, by simpa [Bind.bind, Except.bind] using h⟩

theorem lookupA_append_self {α : Type} (m : List (String × α)) (k : String) (v : α) :
    lookupA (m ++ [(k, v)]) k = some ((lookupA m k).getD v) := by
  induction m with
  | nil => simp [lookupA]
  | cons p rest ih =>
      obtain ⟨k', v'⟩ := p
      by_cases h : k' = k <;> simp [lookupA, h, ih]

theorem lookupA_append_other {α : Type} (m : List (String × α)) (k : String) (v : α)
    (k' : String) (h : k' ≠ k) :
    lookupA (m ++ [(k, v)]) k' = lookupA m k' := by
  induction m with
  | nil => simp [lookupA, Ne.symm h]
  | cons p rest ih =>
      obtain ⟨k2, v2⟩ := p
      by_cases h2 : k2 = k' <;> simp [lookupA, h2, ih]

theorem lookupA_isSome_iff {α : Type} (m : List (String × α)) (k : String) :
    (lookupA m k).isSome = true ↔ k ∈ m.map Prod.fst := by
  induction m with
  | nil => simp [lookupA]
  | cons p rest ih =>
      obtain ⟨k', v'⟩ := p
      by_cases h : k' = k
      · subst h; simp [lookupA]
      · simp only [lookupA, if_neg h, ih, List.map_cons, List.mem_cons]
        constructor
        · exact fun hm => Or.inr hm
        · rintro (hm | hm)
          · exact absurd hm.symm h
          · exact hm

theorem lookupA_updateA_self {α : Type} (m : List (String × α)) (k : String) (v : α) :
    lookupA (updateA m k v) k = some v := by
  induction m with
  | nil => simp [updateA, lookupA]
  | cons p rest ih =>
      obtain ⟨k', v'⟩ := p
      by_cases h : k' = k <;> simp [updateA, lookupA, h, ih]

theorem lookupA_updateA_other {α : Type} (m : List (String × α)) (k : String) (v : α)
    (k' : String) (h : k' ≠ k) :
    lookupA (updateA m k v) k' = lookupA m k' := by
  induction m with
  | nil => simp [updateA, lookupA, Ne.symm h]
  | cons p rest ih =>
      obtain ⟨k2, v2⟩ := p
      by_cases h2 : k2 = k
      · subst h2; simp [updateA, lookupA, Ne.symm h]
      · by_cases h3 : k2 = k'
        · subst h3; simp [updateA, lookupA, h2]
        · simp [updateA, lookupA, h2, h3, ih]

theorem lookupA_eraseA_other {α : Type} (m : List (String × α)) (k k' : String)
    (h : k' ≠ k) :
    lookupA (eraseA m k) k' = lookupA m k' := by
  induction m with
  | nil => simp [eraseA]
  | cons p rest ih =>
      obtain ⟨k2, v2⟩ := p
      by_cases h2 : k2 = k
      · subst h2; simp [eraseA, lookupA, Ne.symm h]
      · by_cases h3 : k2 = k'
        · subst h3; simp [eraseA, lookupA, h2]
        · simp [eraseA, lookupA, h2, h3, ih]

theorem lookupA_map_value {α β : Type} (m : List (String × α)) (f : String → α → β)
    (k : String) :
    lookupA (m.map (fun p => (p.1, f p.1 p.2))) k = (lookupA m k).map (f k) := by
  induction m with
  | nil => simp [lookupA]
  | cons p rest ih =>
      obtain ⟨k', v'⟩ := p
      by_cases h : k' = k
      · subst h; simp [lookupA]
      · simp [lookupA, h, ih]

theorem sum_updateA_append (m : List (String × List JVal)) (k : String) (s : JVal) :
    ((updateA m k (((lookupA m k).getD []) ++ [s])).map (fun p => p.2.length)).sum
      = (m.map (fun p => p.2.length)).sum + 1 := by
  induction m with
  | nil => simp [updateA, lookupA]
  | cons p rest ih =>
      obtain ⟨k', v'⟩ := p
      by_cases h : k' = k
      · subst h; simp [updateA, lookupA]; omega
      · simp [updateA, lookupA, h] at ih ⊢; omega

@[simp] theorem resource_add_provider (d : TerraformDict) (n : String) (p : JVal) :
    (d.add_provider n p).resource = d.resource := by
  unfold TerraformDict.add_provider; split <;> rfl

@[simp] theorem resource_add_variable (d : TerraformDict) (n : String) (p : JVal) :
    (d.add_variable n p).resource = d.resource := by
  unfold TerraformDict.add_variable; split <;> rfl

@[simp] theorem resource_add_output (d : TerraformDict) (n : String) (v : JVal) :
    (d.add_output n v).resource = d.resource := by
  unfold TerraformDict.add_output; split <;> rfl

@[simp] theorem resource_add_data (d : TerraformDict) (n : String) (v : JVal) :
    (d.add_data n v).resource = d.resource := by
  unfold TerraformDict.add_data; split <;> rfl

@[simp] theorem resource_add_instance_variable (d : TerraformDict) (n : String) (c : Nat) :
    (d.add_instance_variable n c).resource = d.resource := by
  simp [TerraformDict.add_instance_variable]

@[simp] theorem resource_update_instance_vars (d : TerraformDict)
    (old : List (String × List String)) :
    (d.update_instance_vars old).resource = d.resource := rfl

@[simp] theorem provider_add_variable (d : TerraformDict) (n : String) (p : JVal) :
    (d.add_variable n p).provider = d.provider := by
  unfold TerraformDict.add_variable; split <;> rfl

@[simp] theorem provider_add_output (d : TerraformDict) (n : String) (v : JVal) :
    (d.add_output n v).provider = d.provider := by
  unfold TerraformDict.add_output; split <;> rfl

@[simp] theorem provider_add_resource (d : TerraformDict) (t : String) (s : JVal) :
    (d.add_resource t s).provider = d.provider := by
  unfold TerraformDict.add_resource; split <;> rfl

@[simp] theorem provider_add_data (d : TerraformDict) (n : String) (v : JVal) :
    (d.add_data n v).provider = d.provider := by
  unfold TerraformDict.add_data; split <;> rfl

@[simp] theorem provider_add_instance_variable (d : TerraformDict) (n : String) (c : Nat) :
    (d.add_instance_variable n c).provider = d.provider := by
  simp [TerraformDict.add_instance_variable]

@[simp] theorem provider_update_instance_vars (d : TerraformDict)
    (old : List (String × List String)) :
    (d.update_instance_vars old).provider = d.provider := rfl

@[simp] theorem tfvars_add_provider (d : TerraformDict) (n : String) (p : JVal) :
    (d.add_provider n p).tfvars = d.tfvars := by
  unfold TerraformDict.add_provider; split <;> rfl

@[simp] theorem tfvars_add_variable (d : TerraformDict) (n : String) (p : JVal) :
    (d.add_variable n p).tfvars = d.tfvars := by
  unfold TerraformDict.add_variable; split <;> rfl

@[simp] theorem tfvars_add_instance_variable (d : TerraformDict) (n : String) (c : Nat) :
    (d.add_instance_variable n c).tfvars = updateA d.tfvars n (TerraformDict.tokenList c) := by
  simp [TerraformDict.add_instance_variable]

theorem add_provider_keys (d : TerraformDict) (n : String) (p : JVal) :
    (d.add_provider n p).provider.map Prod.fst
      = insertNewKey (d.provider.map Prod.fst) n := by
  unfold TerraformDict.add_provider insertNewKey
  by_cases h : (lookupA d.provider n).isSome
  · rw [if_pos h, if_pos ((lookupA_isSome_iff _ _).1 h)]
  · rw [if_neg h, if_neg (fun hm => h ((lookupA_isSome_iff _ _).2 hm))]
    simp

theorem resourceTotal_congr {d d' : TerraformDict} (h : d'.resource = d.resource) :
    resourceTotal d' = resourceTotal d := by
  unfold resourceTotal; rw [h]

theorem add_resource_resourceTotal (d : TerraformDict) (t : String) (s : JVal)
    (h : s ∉ (lookupA d.resource t).getD []) :
    resourceTotal (d.add_resource t s) = resourceTotal d + 1 := by
  unfold TerraformDict.add_resource resourceTotal
  rw [if_neg h]
  exact sum_updateA_append d.resource t s

theorem add_resource_lookup_other (d : TerraformDict) (t : String) (s : JVal)
    (t' : String) (h : t' ≠ t) :
    lookupA (d.add_resource t s).resource t' = lookupA d.resource t' := by
  unfold TerraformDict.add_resource
  split
  · rfl
  · exact lookupA_updateA_other _ _ _ _ h

theorem add_resource_lookup_self (d : TerraformDict) (t : String) (s : JVal)
    (h : s ∉ (lookupA d.resource t).getD []) :
    lookupA (d.add_resource t s).resource t
      = some ((((lookupA d.resource t).getD []) ++ [s])) := by
  unfold TerraformDict.add_resource
  rw [if_neg h]
  exact lookupA_updateA_self _ _ _

theorem stanzaTag_inj (t p q : String) (h : stanzaTag t p = stanzaTag t q) : p = q := by
  unfold stanzaTag at h
  have h2 := congrArg String.data h
  rw [String.data_append, String.data_append] at h2
  exact String.ext (List.append_cancel_right h2)

theorem taggedBy_empty (P : List String) : TaggedBy P {} := by
  intro t l h
  simp [lookupA] at h

theorem TaggedBy.mono {P P' : List String} {d : TerraformDict}
    (h : TaggedBy P d) (hsub : P ⊆ P') : TaggedBy P' d := by
  intro t l hl s hs
  obtain ⟨p, hp, hk⟩ := h t l hl s hs
  exact ⟨p, hsub hp, hk⟩

theorem TaggedBy.of_resource_eq {P : List String} {d d' : TerraformDict}
    (h : TaggedBy P d) (he : d'.resource = d.resource) : TaggedBy P d' := by
  intro t l hl
  exact h t l (he ▸ hl)

theorem TaggedBy.not_mem {P : List String} {d : TerraformDict} {n t : String} {s : JVal}
    (h : TaggedBy P d) (hn : n ∉ P) (hk : outerKey s = some (stanzaTag t n)) :
    s ∉ (lookupA d.resource t).getD [] := by
  intro hmem
  cases hcur : lookupA d.resource t with
  | none => rw [hcur] at hmem; simp at hmem
  | some l =>
      rw [hcur] at hmem
      simp at hmem
      obtain ⟨p, hp, hk'⟩ := h t l hcur s hmem
      rw [hk] at hk'
      injection hk' with hk''
      exact hn (stanzaTag_inj t n p hk'' ▸ hp)

theorem TaggedBy.add_resource {P : List String} {d : TerraformDict} {n t : String}
    {s : JVal} (h : TaggedBy P d) (hn : n ∈ P)
    (hk : outerKey s = some (stanzaTag t n)) : TaggedBy P (d.add_resource t s) := by
  intro t' l hl s' hs'
  by_cases ht : t' = t
  · subst ht
    by_cases hmem : s ∈ (lookupA d.resource t').getD []
    · have : d.add_resource t' s = d := by
        unfold TerraformDict.add_resource; rw [if_pos hmem]
      rw [this] at hl
      exact h t' l hl s' hs'
    · rw [add_resource_lookup_self d t' s hmem] at hl
      injection hl with hl
      subst hl
      rcases List.mem_append.1 hs' with hold | hnew
      · cases hcur : lookupA d.resource t' with
        | none => rw [hcur] at hold; simp at hold
        | some l0 =>
            rw [hcur] at hold
            exact h t' l0 hcur s' hold
      · rw [List.mem_singleton.1 hnew]
        exact ⟨n, hn, hk⟩
  · rw [add_resource_lookup_other d t s t' ht] at hl
    exact h t' l hl s' hs'

@[simp] theorem resource_azure_base (nm : String) (mi : Nat) (p : AzureParsed)
    (d : TerraformDict) : (azure_base nm mi p d).resource = d.resource := by
  simp [azure_base]

theorem provider_azure_base (nm : String) (mi : Nat) (p : AzureParsed)
    (d : TerraformDict) :
    (azure_base nm mi p d).provider.map Prod.fst
      = insertNewKey (d.provider.map Prod.fst) "azurerm" := by
  simp [azure_base, add_provider_keys]

theorem add_stanza_spec {P : List String} {d0 d : TerraformDict} {nm t : String}
    {s : JVal} (hbase : TaggedBy P d0) (hn : nm ∉ P)
    (hl : lookupA d.resource t = lookupA d0.resource t)
    (hT : TaggedBy (P ++ [nm]) d)
    (hk : outerKey s = some (stanzaTag t nm)) :
    resourceTotal (d.add_resource t s) = resourceTotal d + 1 ∧
    TaggedBy (P ++ [nm]) (d.add_resource t s) := by
  have hmem : nm ∈ P ++ [nm] := List.mem_append.2 (Or.inr (List.mem_singleton.2 rfl))
  have hfresh : s ∉ (lookupA d.resource t).getD [] := by
    rw [hl]; exact hbase.not_mem hn hk
  exact ⟨add_resource_resourceTotal _ _ _ hfresh, hT.add_resource hmem hk⟩

theorem aws_build_spec (nm : String) (mi : Nat) (region : JVal) (ak sk : String)
    (ep : Option JVal) (props : List (String × JVal)) (P : List String)
    (d : TerraformDict) (hT : TaggedBy P d) (hn : nm ∉ P) :
    resourceTotal (aws_build nm mi region ak sk ep props d) = resourceTotal d + 1 ∧
    TaggedBy (P ++ [nm]) (aws_build nm mi region ak sk ep props d) ∧
    (aws_build nm mi region ak sk ep props d).provider.map Prod.fst
      = insertNewKey (d.provider.map Prod.fst) "aws" := by
  have htag : outerKey (JVal.objCons nm (awsInstanceBody nm props) .objNil)
      = some (stanzaTag "aws_instance" nm) := by
    simp [outerKey, stanzaTag, show stanzaSuffix "aws_instance" = "" from rfl]
  have hres1 : ((d.add_provider "aws" (awsProviderVal region ak sk ep)).add_instance_variable
      nm mi).resource = d.resource := by simp
  have hT1 : TaggedBy P ((d.add_provider "aws" (awsProviderVal region ak sk ep)).add_instance_variable
      nm mi) := hT.of_resource_eq hres1
  have hstep := add_stanza_spec hT hn (by rw [hres1])
    (hT1.mono (List.subset_append_left _ _)) htag
  refine ⟨?_, ?_, ?_⟩
  · unfold aws_build
    rw [resourceTotal_congr (resource_add_output _ _ _), hstep.1,
        resourceTotal_congr hres1]
  · unfold aws_build
    exact hstep.2.of_resource_eq (resource_add_output _ _ _)
  · unfold aws_build
    rw [provider_add_output, provider_add_resource, provider_add_instance_variable,
        add_provider_keys]

theorem nova_build_spec (nm : String) (mi : Nat) (p : NovaParsed) (P : List String)
    (d : TerraformDict) (hT : TaggedBy P d) (hn : nm ∉ P) :
    resourceTotal (nova_build nm mi p d) = resourceTotal d + 1 ∧
    TaggedBy (P ++ [nm]) (nova_build nm mi p d) ∧
    (nova_build nm mi p d).provider.map Prod.fst
      = insertNewKey (d.provider.map Prod.fst) "openstack" := by
  have htag : outerKey (JVal.objCons nm (novaVmBody nm p) .objNil)
      = some (stanzaTag "openstack_compute_instance_v2" nm) := by
    simp [outerKey, stanzaTag, show stanzaSuffix "openstack_compute_instance_v2" = "" from rfl]
  have hres1 : ((d.add_instance_variable nm mi).add_provider
      "openstack" (novaProviderVal p)).resource = d.resource := by simp
  have hT1 : TaggedBy P ((d.add_instance_variable nm mi).add_provider
      "openstack" (novaProviderVal p)) := hT.of_resource_eq hres1
  have hstep := add_stanza_spec hT hn (by rw [hres1])
    (hT1.mono (List.subset_append_left _ _)) htag
  refine ⟨?_, ?_, ?_⟩
  · unfold nova_build
    rw [hstep.1, resourceTotal_congr hres1]
  · unfold nova_build
    exact hstep.2
  · unfold nova_build
    rw [provider_add_resource, add_provider_keys, provider_add_instance_variable]

theorem gce_build_spec (nm : String) (mi : Nat) (p : GceParsed) (P : List String)
    (d : TerraformDict) (hT : TaggedBy P d) (hn : nm ∉ P) :
    resourceTotal (gce_build nm mi p d) = resourceTotal d + 1 ∧
    TaggedBy (P ++ [nm]) (gce_build nm mi p d) ∧
    (gce_build nm mi p d).provider.map Prod.fst
      = insertNewKey (d.provider.map Prod.fst) "google" := by
  have htag : outerKey (JVal.objCons nm (gceVmBody nm p) .objNil)
      = some (stanzaTag "google_compute_instance" nm) := by
    simp [outerKey, stanzaTag, show stanzaSuffix "google_compute_instance" = "" from rfl]
  have hres1 : ((d.add_instance_variable nm mi).add_provider
      "google" (gceProviderVal p)).resource = d.resource := by simp
  have hT1 : TaggedBy P ((d.add_instance_variable nm mi).add_provider
      "google" (gceProviderVal p)) := hT.of_resource_eq hres1
  have hstep := add_stanza_spec hT hn (by rw [hres1])
    (hT1.mono (List.subset_append_left _ _)) htag
  refine ⟨?_, ?_, ?_⟩
  · unfold gce_build
    rw [hstep.1, resourceTotal_congr hres1]
  · unfold gce_build
    exact hstep.2
  · unfold gce_build
    rw [provider_add_resource, add_provider_keys, provider_add_instance_variable]

theorem azure_build_spec (nm : String) (mi : Nat) (p : AzureParsed) (P : List String)
    (d : TerraformDict) (hT : TaggedBy P d) (hn : nm ∉ P) :
    resourceTotal (azure_build nm mi p d)
      = resourceTotal d + (if p.public_ip then 4 else 3) ∧
    TaggedBy (P ++ [nm]) (azure_build nm mi p d) ∧
    (azure_build nm mi p d).provider.map Prod.fst
      = insertNewKey (d.provider.map Prod.fst) "azurerm" := by
  have hB : TaggedBy P (azure_base nm mi p d) :=
    hT.of_resource_eq (resource_azure_base nm mi p d)
  have hB' : TaggedBy (P ++ [nm]) (azure_base nm mi p d) :=
    hB.mono (List.subset_append_left _ _)
  have htag_ip : outerKey (JVal.objCons (nm ++ "-ip") (azurePubIpBody nm p) .objNil)
      = some (stanzaTag "azurerm_public_ip" nm) := rfl
  have htag_nic : outerKey (JVal.objCons (nm ++ "-nic") (azureNicBody nm p) .objNil)
      = some (stanzaTag "azurerm_network_interface" nm) := rfl
  have htag_assoc : outerKey (JVal.objCons (nm ++ "security-association")
        (azureAssocBody nm p) .objNil)
      = some (stanzaTag "azurerm_network_interface_security_group_association" nm) := rfl
  have hvmsuf : stanzaSuffix (azureVmType p) = "" := by
    unfold azureVmType; split <;> rfl
  have htag_vm : outerKey (JVal.objCons nm (azureVmBody nm p) .objNil)
      = some (stanzaTag (azureVmType p) nm) := by
    simp [outerKey, stanzaTag, hvmsuf]
  have hvm_ne_ip : azureVmType p ≠ "azurerm_public_ip" := by
    unfold azureVmType; split <;> decide
  have hvm_ne_nic : azureVmType p ≠ "azurerm_network_interface" := by
    unfold azureVmType; split <;> decide
  have hvm_ne_assoc : azureVmType p
      ≠ "azurerm_network_interface_security_group_association" := by
    unfold azureVmType; split <;> decide
  by_cases hp : p.public_ip = true
  · have step1 := add_stanza_spec hB hn rfl hB' htag_ip
    have hl2 : lookupA ((azure_base nm mi p d).add_resource "azurerm_public_ip"
          (JVal.objCons (nm ++ "-ip") (azurePubIpBody nm p) .objNil)).resource
          "azurerm_network_interface"
        = lookupA (azure_base nm mi p d).resource "azurerm_network_interface" :=
      add_resource_lookup_other _ _ _ _ (by decide)
    have step2 := add_stanza_spec hB hn hl2 step1.2 htag_nic
    have hl3 : lookupA (((azure_base nm mi p d).add_resource "azurerm_public_ip"
          (JVal.objCons (nm ++ "-ip") (azurePubIpBody nm p) .objNil)).add_resource
          "azurerm_network_interface"
          (JVal.objCons (nm ++ "-nic") (azureNicBody nm p) .objNil)).resource
          "azurerm_network_interface_security_group_association"
        = lookupA (azure_base nm mi p d).resource
          "azurerm_network_interface_security_group_association" := by
      rw [add_resource_lookup_other _ _ _ _ (by decide),
          add_resource_lookup_other _ _ _ _ (by decide)]
    have step3 := add_stanza_spec hB hn hl3 step2.2 htag_assoc
    have hl4 : lookupA ((((azure_base nm mi p d).add_resource "azurerm_public_ip"
          (JVal.objCons (nm ++ "-ip") (azurePubIpBody nm p) .objNil)).add_resource
          "azurerm_network_interface"
          (JVal.objCons (nm ++ "-nic") (azureNicBody nm p) .objNil)).add_resource
          "azurerm_network_interface_security_group_association"
          (JVal.objCons (nm ++ "security-association") (azureAssocBody nm p) .objNil)).resource
          (azureVmType p)
        = lookupA (azure_base nm mi p d).resource (azureVmType p) := by
      rw [add_resource_lookup_other _ _ _ _ hvm_ne_assoc,
          add_resource_lookup_other _ _ _ _ hvm_ne_nic,
          add_resource_lookup_other _ _ _ _ hvm_ne_ip]
    have step4 := add_stanza_spec hB hn hl4 step3.2 htag_vm
    refine ⟨?_, ?_, ?_⟩
    · simp only [azure_build]
      rw [if_pos hp, if_pos hp]
      rw [resourceTotal_congr (resource_add_output _ _ _), step4.1, step3.1, step2.1,
          step1.1, resourceTotal_congr (resource_azure_base nm mi p d)]
    · simp only [azure_build]
      rw [if_pos hp]
      exact step4.2.of_resource_eq (resource_add_output _ _ _)
    · simp only [azure_build]
      rw [if_pos hp]
      rw [provider_add_output, provider_add_resource, provider_add_resource,
          provider_add_resource, provider_add_resource, provider_azure_base]
  · have step2 := add_stanza_spec hB hn rfl hB' htag_nic
    have hl3 : lookupA ((azure_base nm mi p d).add_resource
          "azurerm_network_interface"
          (JVal.objCons (nm ++ "-nic") (azureNicBody nm p) .objNil)).resource
          "azurerm_network_interface_security_group_association"
        = lookupA (azure_base nm mi p d).resource
          "azurerm_network_interface_security_group_association" :=
      add_resource_lookup_other _ _ _ _ (by decide)
    have step3 := add_stanza_spec hB hn hl3 step2.2 htag_assoc
    have hl4 : lookupA (((azure_base nm mi p d).add_resource
          "azurerm_network_interface"
          (JVal.objCons (nm ++ "-nic") (azureNicBody nm p) .objNil)).add_resource
          "azurerm_network_interface_security_group_association"
          (JVal.objCons (nm ++ "security-association") (azureAssocBody nm p) .objNil)).resource
          (azureVmType p)
        = lookupA (azure_base nm mi p d).resource (azureVmType p) := by
      rw [add_resource_lookup_other _ _ _ _ hvm_ne_assoc,
          add_resource_lookup_other _ _ _ _ hvm_ne_nic]
    have step4 := add_stanza_spec hB hn hl4 step3.2 htag_vm
    refine ⟨?_, ?_, ?_⟩
    · simp only [azure_build]
      rw [if_neg hp, if_neg hp]
      rw [resourceTotal_congr (resource_add_output _ _ _), step4.1, step3.1, step2.1,
          resourceTotal_congr (resource_azure_base nm mi p d)]
    · simp only [azure_build]
      rw [if_neg hp]
      exact step4.2.of_resource_eq (resource_add_output _ _ _)
    · simp only [azure_build]
      rw [if_neg hp]
      rw [provider_add_output, provider_add_resource, provider_add_resource,
          provider_add_resource, provider_azure_base]

theorem add_terraform_nova_ok {creds : List CredEntry} {nm : String} {mi : Nat}
    {d : TerraformDict} {props : List (String × JVal)} {d' : TerraformDict}
    (h : add_terraform_nova creds nm mi d props = .ok d') :
    ∃ p, d' = nova_build nm mi p d := by
  unfold add_terraform_nova at h
  obtain ⟨p, _, h2⟩ := exceptBind_ok h
  refine ⟨p, ?_⟩
  simpa [pure, Except.pure] using h2.symm

theorem add_terraform_gce_ok {nm : String} {mi : Nat}
    {d : TerraformDict} {props : List (String × JVal)} {d' : TerraformDict}
    (h : add_terraform_gce nm mi d props = .ok d') :
    ∃ p, d' = gce_build nm mi p d := by
  unfold add_terraform_gce at h
  obtain ⟨p, _, h2⟩ := exceptBind_ok h
  refine ⟨p, ?_⟩
  simpa [pure, Except.pure] using h2.symm

theorem azure_parse_public_ip {creds : List CredEntry} {props : List (String × JVal)}
    {p : AzureParsed} (h : azure_parse creds props = .ok p) :
    p.public_ip = jTruthy (pyGet props "public_ip") := by
  unfold azure_parse at h
  obtain ⟨c, _, h⟩ := exceptBind_ok h
  obtain ⟨u, _, h⟩ := exceptBind_ok h
  obtain ⟨pv, _, h⟩ := exceptBind_ok h
  obtain ⟨rg, _, h⟩ := exceptBind_ok h
  obtain ⟨vn, _, h⟩ := exceptBind_ok h
  obtain ⟨sn, _, h⟩ := exceptBind_ok h
  obtain ⟨nsg, _, h⟩ := exceptBind_ok h
  obtain ⟨sz, _, h⟩ := exceptBind_ok h
  have hp : p = { provider := pv, resource_group := rg, virtual_network := vn,
                  subnet := sn, network_security_group := nsg,
                  public_ip := jTruthy (pyGet (eraseA props "use_msi") "public_ip"),
                  size := sz,
                  image_sku := pyGet (eraseA props "use_msi") "image_sku",
                  source_image_id := pyGet (eraseA props "use_msi") "source_image_id",
                  admin_username := pyGet (eraseA props "use_msi") "admin_username",
                  admin_password := pyGet (eraseA props "use_msi") "admin_password",
                  public_key := pyGet (eraseA props "use_msi") "public_key",
                  context := jTruthy (pyGet (eraseA props "use_msi") "context") } := by
    simpa [pure, Except.pure] using h.symm
  rw [hp]
  simp only [pyGet]
  rw [lookupA_eraseA_other _ _ _ (by decide)]

theorem add_terraform_azure_ok {creds : List CredEntry} {nm : String} {mi : Nat}
    {d : TerraformDict} {props : List (String × JVal)} {d' : TerraformDict}
    (h : add_terraform_azure creds nm mi d props = .ok d') :
    ∃ p, d' = azure_build nm mi p d
      ∧ p.public_ip = jTruthy (pyGet props "public_ip") := by
  unfold add_terraform_azure at h
  obtain ⟨p, hp, h2⟩ := exceptBind_ok h
  refine ⟨p, ?_, azure_parse_public_ip hp⟩
  simpa [pure, Except.pure] using h2.symm

theorem add_terraform_aws_ok {creds : List CredEntry} {nm : String} {mi : Nat}
    {d : TerraformDict} {props : List (String × JVal)} {d' : TerraformDict}
    (h : add_terraform_aws creds nm mi d props = .ok d') :
    ∃ region ak sk ep props', d' = aws_build nm mi region ak sk ep props' d := by
  unfold add_terraform_aws at h
  obtain ⟨region, _, h⟩ := exceptBind_ok h
  obtain ⟨u, _, h⟩ := exceptBind_ok h
  obtain ⟨ak, _, h⟩ := exceptBind_ok h
  obtain ⟨sk, _, h⟩ := exceptBind_ok h
  exact ⟨region, ak, sk, _, _, by simpa [pure, Except.pure] using h.symm⟩

theorem translateNode_spec (creds : List CredEntry) (P : List String)
    (d : TerraformDict) (n : NodeSpec) (d' : TerraformDict)
    (hT : TaggedBy P d) (hn : n.name ∉ P)
    (h : translateNode creds d n = .ok d') :
    resourceTotal d' = resourceTotal d + stanzaWeight n ∧
    TaggedBy (P ++ [n.name]) d' ∧
    d'.provider.map Prod.fst
      = (match providerNameOf n with
         | some pn => insertNewKey (d.provider.map Prod.fst) pn
         | none => d.provider.map Prod.fst) := by
  unfold translateNode at h
  by_cases hu : nameHasUnderscore n.name = true
  · rw [if_pos hu] at h
    exact absurd h (by simp)
  · rw [if_neg hu] at h
    by_cases hi : n.hasInterface = true
    · rw [if_neg (by simp [hi])] at h
      by_cases hec : n.cloud_type = some "ec2"
      · rw [if_pos hec] at h
        obtain ⟨props', _, h⟩ := exceptBind_ok h
        obtain ⟨region, ak, sk, ep, props'', hbuild⟩ := add_terraform_aws_ok h
        subst hbuild
        obtain ⟨h1, h2, h3⟩ :=
          aws_build_spec n.name n.min_instances region ak sk ep props'' P d hT hn
        refine ⟨?_, h2, ?_⟩
        · rw [h1]; simp [stanzaWeight, hi, hec]
        · rw [h3]; simp [providerNameOf, hi, hec]
      · rw [if_neg hec] at h
        by_cases hnv : n.cloud_type = some "nova"
        · rw [if_pos hnv] at h
          obtain ⟨p, hbuild⟩ := add_terraform_nova_ok h
          subst hbuild
          obtain ⟨h1, h2, h3⟩ := nova_build_spec n.name n.min_instances p P d hT hn
          refine ⟨?_, h2, ?_⟩
          · rw [h1]; simp [stanzaWeight, hi, hec, hnv]
          · rw [h3]; simp [providerNameOf, hi, hec, hnv]
        · rw [if_neg hnv] at h
          by_cases haz : n.cloud_type = some "azure"
          · rw [if_pos haz] at h
            obtain ⟨p, hbuild, hpub⟩ := add_terraform_azure_ok h
            subst hbuild
            obtain ⟨h1, h2, h3⟩ := azure_build_spec n.name n.min_instances p P d hT hn
            refine ⟨?_, h2, ?_⟩
            · rw [h1, hpub]; simp [stanzaWeight, hi, hec, hnv, haz]
            · rw [h3]; simp [providerNameOf, hi, hec, hnv, haz]
          · rw [if_neg haz] at h
            by_cases hgc : n.cloud_type = some "gce"
            · rw [if_pos hgc] at h
              obtain ⟨p, hbuild⟩ := add_terraform_gce_ok h
              subst hbuild
              obtain ⟨h1, h2, h3⟩ := gce_build_spec n.name n.min_instances p P d hT hn
              refine ⟨?_, h2, ?_⟩
              · rw [h1]; simp [stanzaWeight, hi, hec, hnv, haz, hgc]
              · rw [h3]; simp [providerNameOf, hi, hec, hnv, haz, hgc]
            · rw [if_neg hgc] at h
              have hd : d = d' := by simpa [pure, Except.pure] using h
              subst hd
              refine ⟨by simp [stanzaWeight, hi, hec, hnv, haz, hgc],
                hT.mono (List.subset_append_left _ _), ?_⟩
              simp [providerNameOf, hi, hec, hnv, haz, hgc]
    · have hif : n.hasInterface = false := by
        revert hi; cases n.hasInterface <;> simp
      rw [if_pos (by simp [hif])] at h
      have hd : d = d' := by simpa [pure, Except.pure] using h
      subst hd
      refine ⟨by simp [stanzaWeight, hif],
        hT.mono (List.subset_append_left _ _), ?_⟩
      simp [providerNameOf, hif]

theorem translateNodes_spec (creds : List CredEntry) (nodes : List NodeSpec) :
    ∀ (P : List String) (d d' : TerraformDict),
      TaggedBy P d →
      (P ++ nodes.map NodeSpec.name).Nodup →
      List.foldlM (translateNode creds) d nodes = .ok d' →
      resourceTotal d' = resourceTotal d + (nodes.map stanzaWeight).sum ∧
      TaggedBy (P ++ nodes.map NodeSpec.name) d' ∧
      d'.provider.map Prod.fst
        = (nodes.filterMap providerNameOf).foldl insertNewKey (d.provider.map Prod.fst) := by
  induction nodes with
  | nil =>
      intro P d d' hT hnd h
      simp only [List.foldlM_nil] at h
      have hd : d = d' := by simpa [pure, Except.pure] using h
      subst hd
      exact ⟨by simp, by simpa using hT, by simp⟩
  | cons n ns ih =>
      intro P d d' hT hnd h
      rw [List.foldlM_cons] at h
      obtain ⟨d1, h1, h2⟩ := exceptBind_ok h
      have hn : n.name ∉ P := by
        intro hmem
        exact (List.nodup_append.1 hnd).2.2 hmem (by simp)
      obtain ⟨c1, c2, c3⟩ := translateNode_spec creds P d n d1 hT hn h1
      have hnd' : ((P ++ [n.name]) ++ ns.map NodeSpec.name).Nodup := by
        simpa [List.append_assoc] using hnd
      obtain ⟨r1, r2, r3⟩ := ih (P ++ [n.name]) d1 d' c2 hnd' h2
      refine ⟨?_, ?_, ?_⟩
      · rw [r1, c1]
        simp only [List.map_cons, List.sum_cons]
        omega
      · simpa [List.append_assoc] using r2
      · rw [r3, c3]
        cases hpn : providerNameOf n <;> simp [List.filterMap_cons, hpn]

theorem insertNewKey_toFinset (ks : List String) (k : String) :
    (insertNewKey ks k).toFinset = insert k ks.toFinset := by
  unfold insertNewKey
  by_cases hk : k ∈ ks
  · rw [if_pos hk, Finset.insert_eq_self.2 (by simpa using hk)]
  · rw [if_neg hk]
    ext x
    simp [or_comm]

theorem insertNewKey_nodup (ks : List String) (k : String) (h : ks.Nodup) :
    (insertNewKey ks k).Nodup := by
  unfold insertNewKey
  by_cases hk : k ∈ ks
  · rw [if_pos hk]; exact h
  · rw [if_neg hk]
    simp [List.nodup_append, h, hk]

theorem foldl_insertNewKey_toFinset (l : List String) :
    ∀ acc : List String,
      (l.foldl insertNewKey acc).toFinset = acc.toFinset ∪ l.toFinset := by
  induction l with
  | nil => intro acc; simp
  | cons a l ih =>
      intro acc
      rw [List.foldl_cons, ih, insertNewKey_toFinset]
      ext x
      simp
      

theorem foldl_insertNewKey_nodup (l : List String) :
    ∀ acc, acc.Nodup → (l.foldl insertNewKey acc).Nodup := by
  induction l with
  | nil => intro acc h; exact h
  | cons a l ih => intro acc h; exact ih _ (insertNewKey_nodup _ _ h)

theorem length_foldl_insertNewKey (l : List String) :
    (l.foldl insertNewKey []).length = l.dedup.length := by
  have h1 : (l.foldl insertNewKey []).toFinset = l.toFinset := by
    rw [foldl_insertNewKey_toFinset]; simp
  have h2 : (l.foldl insertNewKey []).Nodup := foldl_insertNewKey_nodup l [] (by simp)
  calc (l.foldl insertNewKey []).length
      = (l.foldl insertNewKey []).toFinset.card := (List.toFinset_card_of_nodup h2).symm
    _ = l.toFinset.card := by rw [h1]
    _ = l.dedup.length := List.card_toFinset l

/-- C1: after `update_instance_vars old`, a node name present in both the old
mapping and the fresh `tfvars` keeps exactly its old token list; a name
present only in the fresh set keeps its fresh list (in particular the
`["1", ..., str(count)]` list that `add_instance_variable` creates); a name
present only in `old` does not appear in the result. -/
theorem update_instance_vars_spec (d : TerraformDict)
    (old : List (String × List String)) :
    (∀ nm l lOld, lookupA d.tfvars nm = some l → lookupA old nm = some lOld →
      lookupA (d.update_instance_vars old).tfvars nm = some lOld) ∧
    (∀ nm l, lookupA d.tfvars nm = some l → lookupA old nm = none →
      lookupA (d.update_instance_vars old).tfvars nm = some l) ∧
    (∀ nm, lookupA d.tfvars nm = none →
      lookupA (d.update_instance_vars old).tfvars nm = none) ∧
    (∀ nm c, lookupA (d.add_instance_variable nm c).tfvars nm
      = some (TerraformDict.tokenList c)) := by
  refine ⟨?_, ?_, ?_, ?_⟩
  · intro nm l lOld hl hOld
    show lookupA (d.tfvars.map (fun p => (p.1, (lookupA old p.1).getD p.2))) nm = _
    rw [lookupA_map_value d.tfvars (fun k v => (lookupA old k).getD v) nm, hl, hOld]
    rfl
  · intro nm l hl hOld
    show lookupA (d.tfvars.map (fun p => (p.1, (lookupA old p.1).getD p.2))) nm = _
    rw [lookupA_map_value d.tfvars (fun k v => (lookupA old k).getD v) nm, hl, hOld]
    rfl
  · intro nm hl
    show lookupA (d.tfvars.map (fun p => (p.1, (lookupA old p.1).getD p.2))) nm = _
    rw [lookupA_map_value d.tfvars (fun k v => (lookupA old k).getD v) nm, hl]
    rfl
  · intro nm c
    rw [tfvars_add_instance_variable, lookupA_updateA_self]

theorem update_instance_vars_spec_witness :
    lookupA ((TerraformDict.add_instance_variable {} "a" 2).update_instance_vars
      [("a", ["1", "2", "3"]), ("b", ["1"])]).tfvars "a" = some ["1", "2", "3"] :=
  (update_instance_vars_spec (TerraformDict.add_instance_variable {} "a" 2)
    [("a", ["1", "2", "3"]), ("b", ["1"])]).1 "a" ["1", "2"] ["1", "2", "3"]
    (by decide) (by decide)

/-- C2: repeating `add_provider` / `add_resource` / `add_data` / `add_output`
with arguments identical to a previous call leaves the document exactly equal
to the state after the first call. -/
theorem add_ops_idempotent (d : TerraformDict) (name : String) (v : JVal) :
    (d.add_provider name v).add_provider name v = d.add_provider name v ∧
    (d.add_resource name v).add_resource name v = d.add_resource name v ∧
    (d.add_data name v).add_data name v = d.add_data name v ∧
    (d.add_output name v).add_output name v = d.add_output name v := by
  refine ⟨?_, ?_, ?_, ?_⟩
  · unfold TerraformDict.add_provider
    by_cases h : (lookupA d.provider name).isSome
    · rw [if_pos h, if_pos h]
    · rw [if_neg h, if_pos (by rw [lookupA_append_self]; rfl)]
  · unfold TerraformDict.add_resource
    by_cases h : v ∈ (lookupA d.resource name).getD []
    · rw [if_pos h, if_pos h]
    · rw [if_neg h, if_pos (by rw [lookupA_updateA_self]; simp)]
  · unfold TerraformDict.add_data
    by_cases h : v ∈ (lookupA d.data name).getD []
    · rw [if_pos h, if_pos h]
    · rw [if_neg h, if_pos (by rw [lookupA_updateA_self]; simp)]
  · unfold TerraformDict.add_output
    by_cases h : (lookupA d.output name).isSome
    · rw [if_pos h, if_pos h]
    · rw [if_neg h, if_pos (by rw [lookupA_append_self]; rfl)]

theorem add_provider_of_isSome (d : TerraformDict) (name : String) (w : JVal)
    (h : (lookupA d.provider name).isSome = true) : d.add_provider name w = d := by
  unfold TerraformDict.add_provider
  rw [if_pos h]

theorem add_provider_of_none (d : TerraformDict) (name : String) (v : JVal)
    (h : lookupA d.provider name = none) :
    (d.add_provider name v).provider = d.provider ++ [(name, v)] := by
  unfold TerraformDict.add_provider
  rw [if_neg (by rw [h]; simp)]

/-- C9: a second `add_provider` / `add_variable` / `add_output` under a name
already present is a silent no-op even for a DIFFERENT value: the first
written value wins and the conflicting later value is discarded without any
error. -/
theorem first_write_wins (d : TerraformDict) (name : String) (v w : JVal) :
    (d.add_provider name v).add_provider name w = d.add_provider name v ∧
    (d.add_variable name v).add_variable name w = d.add_variable name v ∧
    (d.add_output name v).add_output name w = d.add_output name v ∧
    (lookupA d.provider name = none →
      lookupA ((d.add_provider name v).add_provider name w).provider name = some v) := by
  refine ⟨?_, ?_, ?_, ?_⟩
  · unfold TerraformDict.add_provider
    by_cases h : (lookupA d.provider name).isSome
    · rw [if_pos h, if_pos h]
    · rw [if_neg h, if_pos (by rw [lookupA_append_self]; rfl)]
  · unfold TerraformDict.add_variable
    by_cases h : (lookupA d.varMap name).isSome
    · rw [if_pos h, if_pos h]
    · rw [if_neg h, if_pos (by rw [lookupA_append_self]; rfl)]
  · unfold TerraformDict.add_output
    by_cases h : (lookupA d.output name).isSome
    · rw [if_pos h, if_pos h]
    · rw [if_neg h, if_pos (by rw [lookupA_append_self]; rfl)]
  · intro h0
    have hX := add_provider_of_none d name v h0
    have hXl : lookupA (d.add_provider name v).provider name = some v := by
      rw [hX, lookupA_append_self, h0]; rfl
    rw [add_provider_of_isSome _ _ _ (by rw [hXl]; rfl)]
    exact hXl

theorem first_write_wins_witness :
    lookupA ((TerraformDict.add_provider {} "aws" (.str "first")).add_provider
      "aws" (.str "second")).provider "aws" = some (.str "first") :=
  (first_write_wins {} "aws" (.str "first") (.str "second")).2.2.2 (by decide)

/-- C10: `_get_credential_info` returns the `auth_data` of the first
credential-file entry whose type matches and `none` when no entry matches;
the mappers index that result unguarded, so translating an EC2 node against a
credential file with no `ec2` entry fails with an uncaught `TypeError` —
outside the adaptor's distinguished critical taxonomy. -/
theorem credential_lookup_spec :
    (∀ (creds : List CredEntry) (p : String),
      (∀ c ∈ creds, c.type ≠ p) → get_credential_info creds p = none) ∧
    (∀ (pre : List CredEntry) (c : CredEntry) (post : List CredEntry) (p : String),
      (∀ c' ∈ pre, c'.type ≠ p) → c.type = p →
      get_credential_info (pre ++ c :: post) p = some c.auth_data) ∧
    (∀ creds : List CredEntry, get_credential_info creds "ec2" = none →
      translateNode creds {} (awsNodeFix "worker" "eu-west-1")
        = .error (.pyError "TypeError: NoneType is not subscriptable")) ∧
    Err.isCritical (.pyError "TypeError: NoneType is not subscriptable") = false := by
  refine ⟨?_, ?_, ?_, rfl⟩
  · intro creds p h
    induction creds with
    | nil => rfl
    | cons c rest ih =>
        unfold get_credential_info
        rw [if_neg (h c (by simp))]
        exact ih (fun c' hc' => h c' (by simp [hc']))
  · intro pre c post p hpre hc
    induction pre with
    | nil =>
        rw [List.nil_append]
        unfold get_credential_info
        rw [if_pos hc]
    | cons c' rest ih =>
        rw [List.cons_append]
        unfold get_credential_info
        rw [if_neg (hpre c' (by simp))]
        exact ih (fun c'' hc'' => hpre c'' (by simp [hc'']))
  · intro creds h
    have h1 : translateNode creds {} (awsNodeFix "worker" "eu-west-1")
        = add_terraform_aws creds "worker" 2 {}
            [("region", .str "eu-west-1"), ("ami", .str "ami-1"),
             ("instance_type", .str "t2.small")] := rfl
    rw [h1]
    unfold add_terraform_aws
    rw [h]
    rfl

theorem credential_lookup_spec_witness :
    translateNode [] {} (awsNodeFix "worker" "eu-west-1")
      = .error (.pyError "TypeError: NoneType is not subscriptable") :=
  credential_lookup_spec.2.2.1 [] (by decide)

theorem str_data_isEmpty_iff (s : String) : s.data.isEmpty = true ↔ s = "" := by
  constructor
  · intro h
    have hd : s.data = [] := by
      cases hd : s.data with
      | nil => rfl
      | cons a l => rw [hd] at h; simp at h
    exact String.ext hd
  · intro h; subst h; rfl

/-- C6 counterexample: with a credential record whose client secret is
present and non-empty and with no `use_msi` flag anywhere, the code selects
client-secret mode — the emitted fragment carries `client_secret` and no
`use_msi` — while the claim reads "a client secret is present in the
credential record" as one of the conditions whose truth selects
managed-identity. -/
theorem azure_msi_claim_cex :
    lookupA azureCredFix "client_secret" = some "sec-1" ∧
    azure_use_msi azureCredFix "" = false ∧
    (azure_get_provider (some azureCredFix) (azure_use_msi azureCredFix "")).toOption.map
      (fun j => ((j.objGet "client_secret").isSome, (j.objGet "use_msi").isSome))
      = some (true, false) := by decide

/-- C6 amended: managed identity is selected iff the client secret is absent
or empty in the credential record, or the credential `use_msi` flag or the
node-level `use_msi` override equals `"true"` case-insensitively; the
managed-identity fragment carries `use_msi` and omits
`tenant_id` / `client_id` / `client_secret`, while the client-secret fragment
carries those three values from the credential record and no `use_msi`. -/
theorem azure_msi_amended (cred : List (String × String)) (u : String) :
    (azure_use_msi cred u = true ↔
      (lookupA cred "client_secret" = none ∨ lookupA cred "client_secret" = some "" ∨
       lowerStr ((lookupA cred "use_msi").getD "") = "true" ∨ lowerStr u = "true")) ∧
    (∀ sub, azure_use_msi cred u = true →
      lookupA cred "subscription_id" = some sub →
      azure_get_provider (some cred) (azure_use_msi cred u)
        = .ok (JVal.objOf [("version", .str "~> 2.2"), ("subscription_id", .str sub),
            ("features", .objOf []), ("use_msi", .str "true")])) ∧
    (∀ sub ten cli sec, azure_use_msi cred u = false →
      lookupA cred "subscription_id" = some sub →
      lookupA cred "tenant_id" = some ten →
      lookupA cred "client_id" = some cli →
      lookupA cred "client_secret" = some sec →
      azure_get_provider (some cred) (azure_use_msi cred u)
        = .ok (JVal.objOf [("version", .str "~> 2.2"), ("subscription_id", .str sub),
            ("features", .objOf []), ("tenant_id", .str ten), ("client_id", .str cli),
            ("client_secret", .str sec)])) := by
  refine ⟨?_, ?_, ?_⟩
  · unfold azure_use_msi
    cases hcs : lookupA cred "client_secret" with
    | none => simp
    | some s =>
        have hiff : s.data = [] ↔ s = "" := by
          constructor
          · intro hd; exact String.ext hd
          · intro h; subst h; rfl
        simp [Bool.or_eq_true, decide_eq_true_eq, hiff, or_assoc]
  · intro sub hmsi hsub
    rw [hmsi]
    unfold azure_get_provider
    rw [show credGet (some cred) "subscription_id" = Except.ok sub from by
      unfold credGet; simp [hsub]]
    rfl
  · intro sub ten cli sec hmsi hsub hten hcli hsec
    rw [hmsi]
    unfold azure_get_provider
    rw [show credGet (some cred) "subscription_id" = Except.ok sub from by
      unfold credGet; simp [hsub]]
    rw [show credGet (some cred) "tenant_id" = Except.ok ten from by
      unfold credGet; simp [hten]]
    rw [show credGet (some cred) "client_id" = Except.ok cli from by
      unfold credGet; simp [hcli]]
    rw [show credGet (some cred) "client_secret" = Except.ok sec from by
      unfold credGet; simp [hsec]]
    rfl

theorem azure_msi_amended_witness :
    azure_get_provider (some azureCredFix) (azure_use_msi azureCredFix "")
      = .ok (JVal.objOf [("version", .str "~> 2.2"), ("subscription_id", .str "sub-1"),
          ("features", .objOf []), ("tenant_id", .str "ten-1"), ("client_id", .str "cli-1"),
          ("client_secret", .str "sec-1")]) :=
  (azure_msi_amended azureCredFix "").2.2 "sub-1" "ten-1" "cli-1" "sec-1"
    (by decide) (by decide) (by decide) (by decide) (by decide)

/-- C3 counterexample: translating one fully specified Azure node (so N = 1)
succeeds and produces THREE resource stanzas, not one — an Azure node always
contributes a network interface, a security-group association and a virtual
machine (and a fourth stanza when a public IP is requested). -/
theorem translate_counts_cex :
    [azureNodeFix].length = 1 ∧
    (translateOp credsFix [azureNodeFix] false false []).toOption.map
      (fun x => resourceTotal x.1) = some 3 := by decide

/-- C3 amended: for a pass over nodes with distinct names, a successful
translation yields a resource-stanza total equal to the sum of per-node
weights — one per EC2 / Nova / GCE node, three per Azure node, four for an
Azure node requesting a public IP — and exactly one provider entry per
DISTINCT cloud type among the translated nodes (scope does not split
provider entries: later writes under the same provider name are dropped). -/
theorem translate_counts (creds : List CredEntry) (nodes : List NodeSpec)
    (upd validateOnly : Bool) (oldVars : List (String × List String))
    (hnames : (nodes.map NodeSpec.name).Nodup) :
    ∀ d acts st, translateOp creds nodes upd validateOnly oldVars = .ok (d, acts, st) →
      resourceTotal d = (nodes.map stanzaWeight).sum ∧
      d.provider.length = ((nodes.filterMap providerNameOf).dedup).length := by
  intro d acts st h
  unfold translateOp at h
  obtain ⟨d0, h0, h1⟩ := exceptBind_ok h
  obtain ⟨c1, _, c3⟩ := translateNodes_spec creds nodes [] {} d0 (taggedBy_empty [])
    (by simpa using hnames) h0
  have hc1 : resourceTotal d0 = (nodes.map stanzaWeight).sum := by
    simpa [resourceTotal] using c1
  have hc3 : d0.provider.map Prod.fst
      = (nodes.filterMap providerNameOf).foldl insertNewKey [] := by
    simpa using c3
  have hlen : d0.provider.length = ((nodes.filterMap providerNameOf).dedup).length := by
    have hm : d0.provider.length = (d0.provider.map Prod.fst).length :=
      (List.length_map _ _).symm
    rw [hm, hc3, length_foldl_insertNewKey]
  have hmain : d = d0 ∨ d = d0.update_instance_vars oldVars := by
    by_cases hp : d0.provider.isEmpty = true
    · rw [if_pos hp] at h1
      have he : (d0, ([] : List Act), "Skipped") = (d, acts, st) := by
        simpa [pure, Except.pure] using h1
      exact Or.inl (congrArg Prod.fst he).symm
    · rw [if_neg hp] at h1
      by_cases hu : upd = true
      · rw [if_pos hu] at h1
        have he : (d0.update_instance_vars oldVars, [Act.stageTmpFiles], "Translated")
            = (d, acts, st) := by
          simpa [pure, Except.pure] using h1
        exact Or.inr (congrArg Prod.fst he).symm
      · rw [if_neg hu] at h1
        by_cases hv : validateOnly = true
        · rw [if_neg (by simp [hv])] at h1
          have he : (d0, ([] : List Act), "Translated") = (d, acts, st) := by
            simpa [pure, Except.pure] using h1
          exact Or.inl (congrArg Prod.fst he).symm
        · rw [if_pos (by simp [Bool.not_eq_true] at hv; simp [hv])] at h1
          have he : (d0, [Act.commitFiles], "Translated") = (d, acts, st) := by
            simpa [pure, Except.pure] using h1
          exact Or.inl (congrArg Prod.fst he).symm
  rcases hmain with hd | hd <;> subst hd
  · exact ⟨hc1, hlen⟩
  · refine ⟨?_, ?_⟩
    · rw [resourceTotal_congr (resource_update_instance_vars d0 oldVars)]
      exact hc1
    · rw [show (d0.update_instance_vars oldVars).provider = d0.provider from rfl]
      exact hlen

theorem translate_counts_witness :
    ([awsNodeFix "w1" "eu-west-1", azureNodeFix].map NodeSpec.name).Nodup ∧
    (translateOp credsFix [awsNodeFix "w1" "eu-west-1", azureNodeFix]
      false false []).isOk = true ∧
    (∀ d acts st, translateOp credsFix [awsNodeFix "w1" "eu-west-1", azureNodeFix]
        false false [] = .ok (d, acts, st) →
      resourceTotal d = ([awsNodeFix "w1" "eu-west-1", azureNodeFix].map stanzaWeight).sum ∧
      d.provider.length
        = (([awsNodeFix "w1" "eu-west-1", azureNodeFix].filterMap providerNameOf).dedup).length) :=
  ⟨by decide, by decide,
    translate_counts credsFix [awsNodeFix "w1" "eu-west-1", azureNodeFix]
      false false [] (by decide)⟩

@[simp] theorem except_ok_bind {ε α β : Type} (a : α) (f : α → Except ε β) :
    (Except.ok a >>= f) = f a := rfl

@[simp] theorem except_error_bind {ε α β : Type} (e : ε) (f : α → Except ε β) :
    ((Except.error e : Except ε α) >>= f) = Except.error e := rfl

/-- C5: two EC2 nodes in one pass declaring differing regions (the first
non-empty) abort the whole translation with the fatal "multiple regions
unsupported" critical signal; because `translateOp` carries every staged or
committed file action in its `.ok` payload, the `.error` result commits no
graph, variable or bootstrap file for the pass. -/
theorem aws_region_conflict_aborts (r1 r2 : String) (upd validateOnly : Bool)
    (oldVars : List (String × List String))
    (hne : r1 ≠ r2) (hnonempty : r1.data ≠ []) :
    translateOp credsFix [awsNodeFix "w1" r1, awsNodeFix "w2" r2] upd validateOnly oldVars
      = .error (.critical "Multiple different AWS regions is unsupported") := by
  have hjt : jTruthy (.str r1) = true := by
    show (!r1.data.isEmpty) = true
    cases hd : r1.data with
    | nil => exact absurd hd hnonempty
    | cons a l => rfl
  have hne2 : JVal.str r1 ≠ JVal.str r2 := by
    intro hh
    injection hh with hh
    exact hne hh
  have hd1 : translateNode credsFix {} (awsNodeFix "w1" r1)
      = .ok (aws_build "w1" 2 (.str r1) "AK" "SK" none
          [("ami", .str "ami-1"), ("instance_type", .str "t2.small")] {}) := rfl
  have hprev : awsCommittedRegion (aws_build "w1" 2 (.str r1) "AK" "SK" none
      [("ami", .str "ami-1"), ("instance_type", .str "t2.small")] {}) = some (JVal.str r1) := rfl
  have hchk : check_aws_region (aws_build "w1" 2 (.str r1) "AK" "SK" none
        [("ami", .str "ami-1"), ("instance_type", .str "t2.small")] {}) (JVal.str r2)
      = .error (.critical "Multiple different AWS regions is unsupported") := by
    simp [check_aws_region, hprev, hjt, hne2]
  have hd2 : translateNode credsFix (aws_build "w1" 2 (.str r1) "AK" "SK" none
        [("ami", .str "ami-1"), ("instance_type", .str "t2.small")] {}) (awsNodeFix "w2" r2)
      = .error (.critical "Multiple different AWS regions is unsupported") := by
    have e1 : translateNode credsFix (aws_build "w1" 2 (.str r1) "AK" "SK" none
          [("ami", .str "ami-1"), ("instance_type", .str "t2.small")] {}) (awsNodeFix "w2" r2)
        = add_terraform_aws credsFix "w2" 2
            (aws_build "w1" 2 (.str r1) "AK" "SK" none
              [("ami", .str "ami-1"), ("instance_type", .str "t2.small")] {})
            [("region", .str r2), ("ami", .str "ami-1"), ("instance_type", .str "t2.small")] := rfl
    rw [e1]
    unfold add_terraform_aws
    rw [show getKey [("region", JVal.str r2), ("ami", JVal.str "ami-1"),
        ("instance_type", JVal.str "t2.small")] "region" = Except.ok (JVal.str r2) from rfl,
      except_ok_bind]
    rw [hchk, except_error_bind]
  unfold translateOp
  rw [List.foldlM_cons, hd1, except_ok_bind, List.foldlM_cons, hd2, except_error_bind,
    except_error_bind]

theorem aws_region_conflict_aborts_witness :
    translateOp credsFix [awsNodeFix "w1" "eu-west-1", awsNodeFix "w2" "us-east-1"]
      false false []
      = .error (.critical "Multiple different AWS regions is unsupported") :=
  aws_region_conflict_aborts "eu-west-1" "us-east-1" false false []
    (by decide) (by decide)

theorem terraform_exec_lock_round (rest : List (Nat × String)) (out : String) (t : Int)
    (hL : strContains out "Error locking state" = true) (ht : 0 < t) :
    terraform_exec ((0, out) :: rest) t = terraform_exec rest (t - 5) := by
  unfold terraform_exec
  rw [if_neg (by omega)]
  rw [if_pos (by simp [hL]; omega)]
  exact terraform_exec.eq_def _ _

theorem terraform_exec_lock_rounds (k : Nat) (outL : String) (rest : List (Nat × String)) :
    ∀ t : Int, strContains outL "Error locking state" = true → 5 * (k : Int) < t + 5 →
      terraform_exec (List.replicate k (0, outL) ++ rest) t
        = terraform_exec rest (t - 5 * k) := by
  induction k with
  | zero => intro t hL hb; simp
  | succ k ih =>
      intro t hL hb
      rw [List.replicate_succ, List.cons_append]
      have ht : 0 < t := by
        have : (0 : Int) ≤ 5 * (k : Int) := by positivity
        omega
      rw [terraform_exec_lock_round _ _ _ hL ht]
      rw [ih (t - 5) hL (by push_cast at hb ⊢; omega)]
      congr 1
      push_cast
      ring

/-- C4: when the output carries the state-lock-contention signature and the
budget is positive, the executor retries with the budget decremented by the
fixed 5 second sleep; any non-zero exit is immediately fatal with the raw
output; an exhausted budget returns the lock output, which the apply wrapper
turns into a fatal error carrying the raw output; an incremental apply
(300 second budget) rides out two contentions and succeeds; a fresh run
applies with no budget, so a first lock contention is already fatal; the
destroy budget of 600 outlasts a contention streak that exhausts the
300 second apply budget. -/
theorem terraform_retry_policy :
    (∀ (rest : List (Nat × String)) (out : String) (t : Int), 0 < t →
      strContains out "Error locking state" = true →
      terraform_exec ((0, out) :: rest) t = terraform_exec rest (t - 5)) ∧
    (∀ (rest : List (Nat × String)) (out : String) (t : Int) (c : Nat), 0 < c →
      terraform_exec ((c, out) :: rest) t
        = .error (.critical ("Terraform exec failed " ++ out))) ∧
    (∀ (rest : List (Nat × String)) (out : String) (t : Int), t ≤ 0 →
      strContains out "Apply complete" = false →
      terraform_apply ((0, out) :: rest) t
        = .error (.critical ("Terraform apply failed: " ++ out))) ∧
    (∀ (outL outS : String) (initRuns : List (Nat × String)),
      strContains outL "Error locking state" = true →
      strContains outS "Error locking state" = false →
      strContains outS "Apply complete" = true →
      executeRun true initRuns [(0, outL), (0, outL), (0, outS)] = .ok outS) ∧
    (∀ outI outL : String,
      strContains outI "successfully initialized" = true →
      strContains outL "Apply complete" = false →
      executeRun false [(0, outI)] [(0, outL)]
        = .error (.critical ("Terraform apply failed: " ++ outL))) ∧
    (∀ outL outD : String,
      strContains outL "Error locking state" = true →
      strContains outL "Apply complete" = false →
      strContains outD "Error locking state" = false →
      strContains outD "Destroy complete" = true →
      terraform_destroy (List.replicate 61 (0, outL) ++ [(0, outD)]) = .ok outD ∧
      terraform_apply (List.replicate 61 (0, outL) ++ [(0, outD)]) 300
        = .error (.critical ("Terraform apply failed: " ++ outL))) := by
  refine ⟨?_, ?_, ?_, ?_, ?_, ?_⟩
  · exact fun rest out t ht hL => terraform_exec_lock_round rest out t hL ht
  · intro rest out t c hc
    unfold terraform_exec
    rw [if_pos hc]
  · intro rest out t ht hm
    have hexec : terraform_exec ((0, out) :: rest) t = .ok out := by
      unfold terraform_exec
      rw [if_neg (by omega)]
      rw [if_neg (by
        simp only [Bool.and_eq_true, decide_eq_true_eq]
        rintro ⟨h1, _⟩
        omega)]
    unfold terraform_apply
    rw [hexec]
    simp [hm]
  · intro outL outS initRuns hL hS hOK
    unfold executeRun
    rw [if_pos rfl]
    unfold terraform_apply
    rw [terraform_exec_lock_round _ _ _ hL (by norm_num),
        terraform_exec_lock_round _ _ _ hL (by norm_num)]
    have h3 : terraform_exec [(0, outS)] (300 - 5 - 5) = .ok outS := by
      unfold terraform_exec
      rw [if_neg (by omega), if_neg (by simp [hS])]
    rw [h3]
    simp [hOK, pure, Except.pure]
  · intro outI outL hI hLm
    unfold executeRun
    rw [if_neg (by simp)]
    have hinit : terraform_init [(0, outI)] = .ok outI := by
      unfold terraform_init
      have he : terraform_exec [(0, outI)] 0 = .ok outI := by
        unfold terraform_exec
        rw [if_neg (by omega), if_neg (by simp)]
      rw [he]
      simp [hI, pure, Except.pure]
    rw [hinit, except_ok_bind]
    have happ : terraform_exec [(0, outL)] 0 = .ok outL := by
      unfold terraform_exec
      rw [if_neg (by omega), if_neg (by simp)]
    unfold terraform_apply
    rw [happ]
    simp [hLm]
  · intro outL outD hL hLm hDl hDm
    constructor
    · unfold terraform_destroy
      rw [terraform_exec_lock_rounds 61 outL [(0, outD)] 600 hL (by norm_num)]
      rw [show (600 : Int) - 5 * ((61 : Nat) : Int) = 295 from by norm_num]
      have hD : terraform_exec [(0, outD)] 295 = .ok outD := by
        unfold terraform_exec
        rw [if_neg (by omega), if_neg (by simp [hDl])]
      rw [hD]
      simp [hDm, pure, Except.pure]
    · unfold terraform_apply
      rw [show (List.replicate 61 ((0 : Nat), outL) ++ [(0, outD)])
          = List.replicate 60 ((0 : Nat), outL) ++ ((0, outL) :: [(0, outD)]) from by
        rw [show (61 : Nat) = 60 + 1 from rfl, List.replicate_succ', List.append_assoc]
        rfl]
      rw [terraform_exec_lock_rounds 60 outL ((0, outL) :: [(0, outD)]) 300 hL
        (by norm_num)]
      rw [show (300 : Int) - 5 * ((60 : Nat) : Int) = 0 from by norm_num]
      have h0 : terraform_exec ((0, outL) :: [(0, outD)]) 0 = .ok outL := by
        unfold terraform_exec
        rw [if_neg (by omega), if_neg (by simp)]
      rw [h0]
      simp [hLm]

theorem terraform_retry_policy_witness :
    executeRun true [] [(0, "Error locking state"), (0, "Error locking state"),
      (0, "Apply complete! Resources: 1 added")] = .ok "Apply complete! Resources: 1 added" :=
  terraform_retry_policy.2.2.2.1 "Error locking state" "Apply complete! Resources: 1 added"
    [] (by decide) (by decide) (by decide)

theorem translateOp_update_acts {creds : List CredEntry} {nodes : List NodeSpec}
    {oldVars : List (String × List String)} {d : TerraformDict} {acts : List Act}
    {st : String}
    (h : translateOp creds nodes true false oldVars = .ok (d, acts, st))
    (hprov : d.provider.isEmpty = false) : acts = [Act.stageTmpFiles] := by
  unfold translateOp at h
  obtain ⟨d0, h0, h1⟩ := exceptBind_ok h
  by_cases hp : d0.provider.isEmpty = true
  · rw [if_pos hp] at h1
    have he : (d0, ([] : List Act), "Skipped") = (d, acts, st) := by
      simpa [pure, Except.pure] using h1
    have hd : d0 = d := congrArg Prod.fst he
    rw [hd] at hp
    rw [hp] at hprov
    exact absurd hprov (by simp)
  · rw [if_neg hp, if_pos rfl] at h1
    have he : (d0.update_instance_vars oldVars, [Act.stageTmpFiles], "Translated")
        = (d, acts, st) := by
      simpa [pure, Except.pure] using h1
    exact (congrArg (fun x => x.2.1) he).symm

/-- C7: updating with an unchanged descriptor — the staged graph content
byte-identical to the committed one and every existing committed cloud-init
file equal to its staged counterpart — while at least one provider is
present, reports "Updated (nothing to update)", renames or commits no file
(the only effects are staging and then removing the temp files), and removes
the staged temp files. -/
theorem update_nothing_to_update (creds : List CredEntry) (nodes : List NodeSpec)
    (oldVars : List (String × List String)) (cloudInits : List CloudInitPair)
    (dryrun : Bool) (destroyRuns applyRuns : List (Nat × String))
    (hok : (translateOp creds nodes true false oldVars).isOk = true)
    (hprov : (translateOp creds nodes true false oldVars).toOption.map
      (fun x => x.1.provider.isEmpty) = some false)
    (hci : cloudInits.all (fun ci => ci.committed == ci.staged) = true) :
    updateOp creds nodes oldVars
      ((translateOp creds nodes true false oldVars).toOption.map (fun x => x.1))
      cloudInits dryrun destroyRuns applyRuns
      = .ok ("Updated (nothing to update)", [Act.stageTmpFiles, Act.removeTmpFiles]) := by
  cases hT : translateOp creds nodes true false oldVars with
  | error e => rw [hT] at hok; simp [Except.isOk, Except.toBool] at hok
  | ok x =>
      obtain ⟨d, acts, st⟩ := x
      rw [hT] at hprov
      have hpe : d.provider.isEmpty = false := by
        simpa [Except.toOption] using hprov
      have hacts : acts = [Act.stageTmpFiles] := translateOp_update_acts hT hpe
      have hcid : differentiate_cloud_inits cloudInits = false := by
        unfold differentiate_cloud_inits
        rw [List.any_eq_false]
        intro ci hmem
        have hbeq : (ci.committed == ci.staged) = true := by
          rw [List.all_eq_true] at hci
          exact hci ci hmem
        have heq : ci.committed = ci.staged := by
          exact eq_of_beq hbeq
        simp [differentiate, heq]
      unfold updateOp
      rw [hT]
      simp only [except_ok_bind, Except.toOption, Option.map_some']
      simp [hpe, hacts, hcid, differentiate, pure, Except.pure]

theorem update_nothing_to_update_witness :
    updateOp credsFix [awsNodeFix "w1" "eu-west-1"] []
      ((translateOp credsFix [awsNodeFix "w1" "eu-west-1"] true false []).toOption.map
        (fun x => x.1))
      [{ committedExists := true, committed := "cc", staged := "cc" }] false [] []
      = .ok ("Updated (nothing to update)", [Act.stageTmpFiles, Act.removeTmpFiles]) :=
  update_nothing_to_update credsFix [awsNodeFix "w1" "eu-west-1"] []
    [{ committedExists := true, committed := "cc", staged := "cc" }] false [] []
    (by decide) (by decide) (by decide)

/-- C8 counterexample: an update whose staged graph differs from the
committed one terminates with status "Updated Terraform file" — without
parentheses — which is not among the claim's advertised strings
"Updated (Terraform file)" / "Updated (bootstrap files)". -/
theorem update_status_set_cex :
    (updateOp credsFix [awsNodeFix "w1" "eu-west-1"] [] (some {}) [] true [] []).toOption.map
      (fun x => (x.1, decide (x.1 ∈ ["Updated (undeployed)", "Updated (Terraform file)",
        "Updated (bootstrap files)", "Updated (nothing to update)", "Skipped"])))
      = some ("Updated Terraform file", false) := by decide

/-- C8 amended: every normally terminating `update` run reports one of
exactly these coarse statuses: "Updated (undeployed)", "Skipped",
"Updated Terraform file", "Updated cloud_init files", or
"Updated (nothing to update)". -/
theorem update_status_set (creds : List CredEntry) (nodes : List NodeSpec)
    (oldVars : List (String × List String)) (committedTf : Option TerraformDict)
    (cloudInits : List CloudInitPair) (dryrun : Bool)
    (destroyRuns applyRuns : List (Nat × String)) (st : String) (acts : List Act)
    (h : updateOp creds nodes oldVars committedTf cloudInits dryrun destroyRuns applyRuns
      = .ok (st, acts)) :
    st ∈ ["Updated (undeployed)", "Skipped", "Updated Terraform file",
      "Updated cloud_init files", "Updated (nothing to update)"] := by
  unfold updateOp at h
  cases hT : translateOp creds nodes true false oldVars with
  | error e => rw [hT] at h; simp at h
  | ok x =>
      obtain ⟨d, acts0, st0⟩ := x
      rw [hT] at h
      simp only [except_ok_bind] at h
      repeat' split at h
      all_goals try (obtain ⟨_, _, h⟩ := exceptBind_ok h)
      all_goals simp [pure, Except.pure, Prod.ext_iff] at h
      all_goals obtain ⟨h1, h2⟩ := h
      all_goals subst h1
      all_goals simp

theorem update_status_set_witness :
    "Updated Terraform file" ∈ ["Updated (undeployed)", "Skipped",
      "Updated Terraform file", "Updated cloud_init files",
      "Updated (nothing to update)"] :=
  update_status_set credsFix [awsNodeFix "w1" "eu-west-1"] [] (some {}) [] true [] []
    "Updated Terraform file" [Act.stageTmpFiles, Act.renameAllTmpFiles] (by decide)
